import Mathlib

/-!
Consensus rules of the Omni layer (`src/omnicore/rules.cpp`).

A shallow embedding of the rule-resolution and feature-activation code of
`rules.cpp`.

* C++ `int` values (block heights, the fields of `CConsensusParams`) are
  mathematical integers.  Signed overflow is undefined behaviour in C++, so the
  definitions `ActivateFeature` and `DeactivateFeature` compute their sums (the
  two ends of the notice window, the expiry block of the alert) exactly; they
  describe the executions in which these sums are representable.  The compiled
  code wraps the sums around in 32 bits: `ActivateFeatureInt32` is
  `ActivateFeature` with the two ends of the notice window wrapped, and agrees
  with `ActivateFeature` whenever both sums are representable
  (`ActivateFeatureInt32_eq`).  The only other arithmetic on an `int` is the
  remainder `block % 10000` of `VerifyCheckpoint`, which is the truncated
  remainder `Int.tmod`.
* `uint16_t` and `uint32_t` values (feature ids, transaction types, versions,
  property ids, client versions) are natural numbers; they are only compared.
* The mutable globals of the translation unit (the three parameter objects, the
  selected network, the pending activations, the alerts) are one explicit
  `Globals` value that is passed in and returned.
* `PrintToLog` only writes to the log file and is left out.
* The numeric values of the constants declared in the headers (`rules.h`,
  `omnicore.h`, `notifications.h`, `version.h`) are not part of the sources;
  they are collected in a `Header` value that every definition takes as a
  parameter.  The `txnouttype` enumerators of `script/standard.h` are a
  `ScriptTypes` value in the same way.
* A `uint256` hash is a natural number.  The consensus hash returned by
  `GetConsensusHash()` and the membership test `pDbTransactionList->exists` belong
  to collaborators and are arguments of the checkpoint verifier.
-/

namespace mastercore

/-! ## Data model -/

/-- Constants and helpers that `rules.cpp` takes from headers which are not among
the sources.  Every definition below is parametric in them. -/
structure Header where
  /-- Feature identifiers (`rules.h`). -/
  FEATURE_STOV1 : Nat
  FEATURE_FREEZENOTICE : Nat
  FEATURE_FREEDEX : Nat
  FEATURE_NONFUNGIBLE : Nat
  FEATURE_NONFUNGIBLE_ISSUER : Nat
  /-- Client version (`version.h`). -/
  OMNICORE_VERSION : Nat
  /-- Alert type used for block based expiry (`notifications.h`). -/
  ALERT_BLOCK_EXPIRY : Nat
  /-- Transaction packet versions (`omnicore.h`). -/
  MP_TX_PKT_V0 : Nat
  MP_TX_PKT_V1 : Nat
  /-- Transaction types (`omnicore.h`). -/
  OMNICORE_MESSAGE_TYPE_ALERT : Nat
  OMNICORE_MESSAGE_TYPE_ACTIVATION : Nat
  OMNICORE_MESSAGE_TYPE_DEACTIVATION : Nat
  MSC_TYPE_SIMPLE_SEND : Nat
  MSC_TYPE_TRADE_OFFER : Nat
  MSC_TYPE_ACCEPT_OFFER_BTC : Nat
  MSC_TYPE_CREATE_PROPERTY_FIXED : Nat
  MSC_TYPE_CREATE_PROPERTY_VARIABLE : Nat
  MSC_TYPE_CLOSE_CROWDSALE : Nat
  MSC_TYPE_CREATE_PROPERTY_MANUAL : Nat
  MSC_TYPE_GRANT_PROPERTY_TOKENS : Nat
  MSC_TYPE_REVOKE_PROPERTY_TOKENS : Nat
  MSC_TYPE_CHANGE_ISSUER_ADDRESS : Nat
  MSC_TYPE_ENABLE_FREEZING : Nat
  MSC_TYPE_DISABLE_FREEZING : Nat
  MSC_TYPE_FREEZE_PROPERTY_TOKENS : Nat
  MSC_TYPE_UNFREEZE_PROPERTY_TOKENS : Nat
  MSC_TYPE_SEND_TO_OWNERS : Nat
  MSC_TYPE_SEND_ALL : Nat
  MSC_TYPE_ANYDATA : Nat
  MSC_TYPE_SEND_NONFUNGIBLE : Nat
  MSC_TYPE_NONFUNGIBLE_DATA : Nat
  MSC_TYPE_OFFER_ACCEPT_A_BET : Nat
  /-- Property identifiers (`omnicore.h`); `OMNI_PROPERTY_BTC` is the wildcard. -/
  OMNI_PROPERTY_BTC : Nat
  OMNI_PROPERTY_MSC : Nat
  OMNI_PROPERTY_TMSC : Nat
  /-- Membership of a property id in the test ecosystem (`omnicore.h`). -/
  isTestEcosystemProperty : Nat → Bool

/-- The `int` members of `CConsensusParams` that the constructors in `rules.cpp`
initialise. -/
structure CConsensusParams where
  GENESIS_BLOCK : Int
  MIN_ACTIVATION_BLOCKS : Int
  MAX_ACTIVATION_BLOCKS : Int
  OMNI_FREEZE_WAIT_PERIOD : Int
  PUBKEYHASH_BLOCK : Int
  SCRIPTHASH_BLOCK : Int
  MULTISIG_BLOCK : Int
  NULLDATA_BLOCK : Int
  MSC_ALERT_BLOCK : Int
  MSC_SEND_BLOCK : Int
  MSC_DEX_BLOCK : Int
  MSC_SP_BLOCK : Int
  MSC_MANUALSP_BLOCK : Int
  MSC_STO_BLOCK : Int
  MSC_SEND_ALL_BLOCK : Int
  MSC_STOV1_BLOCK : Int
  MSC_ANYDATA_BLOCK : Int
  MSC_NONFUNGIBLE_BLOCK : Int
  FREEZENOTICE_FEATURE_BLOCK : Int
  FREEDEX_FEATURE_BLOCK : Int
  NONFUNGIBLETOKEN_ISSUER_DATA : Int

/-- One row of the restriction table: transaction type, version, whether the
wildcard property 0 is allowed, and the activation block. -/
structure TransactionRestriction where
  txType : Nat
  txVersion : Nat
  allowWildcard : Bool
  activationBlock : Int
deriving DecidableEq, Repr

/-- The arguments of one `AddPendingActivation` call. -/
structure FeatureActivation where
  featureId : Nat
  activationBlock : Int
  minClientVersion : Nat
  featureName : String
deriving DecidableEq, Repr

/-- The arguments of one `AddAlert` call. -/
structure AlertData where
  alertSender : String
  alertType : Nat
  alertExpiry : Int
  alertMessage : String
deriving DecidableEq, Repr

/-- The mutable state `rules.cpp` works on: the three static parameter objects,
the network id reported by `Params().NetworkIDString()`, and the records written
by the collaborators `AddPendingActivation`, `AddAlert` and `DoWarning`. -/
structure Globals where
  mainConsensusParams : CConsensusParams
  testNetConsensusParams : CConsensusParams
  regTestConsensusParams : CConsensusParams
  NetworkIDString : String
  vecPendingActivations : List FeatureActivation
  currentOmniAlerts : List AlertData
  warnings : List String

/-! ## Network parameter set -/

/-- `CMainConsensusParams::CMainConsensusParams()`. -/
def CMainConsensusParams : CConsensusParams :=
  { GENESIS_BLOCK := 3454000
    MIN_ACTIVATION_BLOCKS := 20160
    MAX_ACTIVATION_BLOCKS := 120960
    OMNI_FREEZE_WAIT_PERIOD := 4096
    PUBKEYHASH_BLOCK := 0
    SCRIPTHASH_BLOCK := 3454000
    MULTISIG_BLOCK := 0
    NULLDATA_BLOCK := 3454000
    MSC_ALERT_BLOCK := 0
    MSC_SEND_BLOCK := 3454000
    MSC_DEX_BLOCK := 3454000
    MSC_SP_BLOCK := 3454000
    MSC_MANUALSP_BLOCK := 3454000
    MSC_STO_BLOCK := 3454000
    MSC_SEND_ALL_BLOCK := 3454000
    MSC_STOV1_BLOCK := 100000000
    MSC_ANYDATA_BLOCK := 0
    MSC_NONFUNGIBLE_BLOCK := 3624000
    FREEZENOTICE_FEATURE_BLOCK := 100000000
    FREEDEX_FEATURE_BLOCK := 3454000
    NONFUNGIBLETOKEN_ISSUER_DATA := 100000000 }

/-- `CTestNetConsensusParams::CTestNetConsensusParams()`. -/
def CTestNetConsensusParams : CConsensusParams :=
  { GENESIS_BLOCK := 101
    MIN_ACTIVATION_BLOCKS := 0
    MAX_ACTIVATION_BLOCKS := 9999999
    OMNI_FREEZE_WAIT_PERIOD := 0
    PUBKEYHASH_BLOCK := 0
    SCRIPTHASH_BLOCK := 0
    MULTISIG_BLOCK := 0
    NULLDATA_BLOCK := 0
    MSC_ALERT_BLOCK := 0
    MSC_SEND_BLOCK := 0
    MSC_DEX_BLOCK := 0
    MSC_SP_BLOCK := 0
    MSC_MANUALSP_BLOCK := 0
    MSC_STO_BLOCK := 0
    MSC_SEND_ALL_BLOCK := 0
    MSC_STOV1_BLOCK := 0
    MSC_ANYDATA_BLOCK := 0
    MSC_NONFUNGIBLE_BLOCK := 0
    FREEZENOTICE_FEATURE_BLOCK := 0
    FREEDEX_FEATURE_BLOCK := 0
    NONFUNGIBLETOKEN_ISSUER_DATA := 0 }

/-- `CRegTestConsensusParams::CRegTestConsensusParams()`. -/
def CRegTestConsensusParams : CConsensusParams :=
  { GENESIS_BLOCK := 101
    MIN_ACTIVATION_BLOCKS := 5
    MAX_ACTIVATION_BLOCKS := 10
    OMNI_FREEZE_WAIT_PERIOD := 10
    PUBKEYHASH_BLOCK := 0
    SCRIPTHASH_BLOCK := 0
    MULTISIG_BLOCK := 0
    NULLDATA_BLOCK := 0
    MSC_ALERT_BLOCK := 0
    MSC_SEND_BLOCK := 0
    MSC_DEX_BLOCK := 0
    MSC_SP_BLOCK := 0
    MSC_MANUALSP_BLOCK := 0
    MSC_STO_BLOCK := 0
    MSC_SEND_ALL_BLOCK := 0
    MSC_STOV1_BLOCK := 100000000
    MSC_ANYDATA_BLOCK := 0
    MSC_NONFUNGIBLE_BLOCK := 0
    FREEZENOTICE_FEATURE_BLOCK := 100000000
    FREEDEX_FEATURE_BLOCK := 100000000
    NONFUNGIBLETOKEN_ISSUER_DATA := 100000000 }

/-- The globals as the static initialisers leave them, for a given selected
network: default parameter objects, nothing recorded yet. -/
def initialGlobals (network : String) : Globals :=
  { mainConsensusParams := CMainConsensusParams
    testNetConsensusParams := CTestNetConsensusParams
    regTestConsensusParams := CRegTestConsensusParams
    NetworkIDString := network
    vecPendingActivations := []
    currentOmniAlerts := []
    warnings := [] }

/-- `ConsensusParams(const std::string& network)`: the parameter object of the
named network, the main one for any other name. -/
def ConsensusParams (g : Globals) (network : String) : CConsensusParams :=
  if network = "main" then g.mainConsensusParams
  else if network = "test" then g.testNetConsensusParams
  else if network = "regtest" then g.regTestConsensusParams
  else g.mainConsensusParams

/-- `ConsensusParams()`: the parameter object of the currently selected network. -/
def ConsensusParamsCurrent (g : Globals) : CConsensusParams :=
  ConsensusParams g g.NetworkIDString

/-- A write through the reference returned by `MutableConsensusParams()`: the
object of the currently selected network is replaced by its image under `f`. -/
def MutableConsensusParams (g : Globals) (f : CConsensusParams → CConsensusParams) : Globals :=
  if g.NetworkIDString = "main" then { g with mainConsensusParams := f g.mainConsensusParams }
  else if g.NetworkIDString = "test" then
    { g with testNetConsensusParams := f g.testNetConsensusParams }
  else if g.NetworkIDString = "regtest" then
    { g with regTestConsensusParams := f g.regTestConsensusParams }
  else { g with mainConsensusParams := f g.mainConsensusParams }

/-- `ResetConsensusParams()`. -/
def ResetConsensusParams (g : Globals) : Globals :=
  { g with
    mainConsensusParams := CMainConsensusParams
    testNetConsensusParams := CTestNetConsensusParams
    regTestConsensusParams := CRegTestConsensusParams }

/-! ## Collaborators -/

/-- Modelled from the spec: `AddPendingActivation` is defined in `activation.cpp`,
which is not among the sources.  The spec describes it as appending a
PendingActivation record to an append-only log; the record holds the arguments
of the call. -/
def AddPendingActivation (g : Globals) (featureId : Nat) (activationBlock : Int)
    (minClientVersion : Nat) (featureName : String) : Globals :=
  { g with
    vecPendingActivations := g.vecPendingActivations ++
      [{ featureId := featureId, activationBlock := activationBlock,
         minClientVersion := minClientVersion, featureName := featureName }] }

/-- Modelled from the spec: `AddAlert` is defined in `notifications.cpp`, which is
not among the sources.  The spec describes an alert sink that keeps a standing
warning; the record holds the arguments of the call. -/
def AddAlert (g : Globals) (sender : String) (alertType : Nat) (expiry : Int)
    (message : String) : Globals :=
  { g with
    currentOmniAlerts := g.currentOmniAlerts ++
      [{ alertSender := sender, alertType := alertType, alertExpiry := expiry,
         alertMessage := message }] }

/-- Modelled from the spec: `DoWarning` belongs to the user-interface
collaborator, which is not among the sources; the text passed to it is
recorded. -/
def DoWarning (g : Globals) (message : String) : Globals :=
  { g with warnings := g.warnings ++ [message] }

/-! ## Restriction table -/

/-- `CConsensusParams::GetRestrictions()`. -/
def GetRestrictions (k : Header) (p : CConsensusParams) : List TransactionRestriction :=
  [ ⟨k.OMNICORE_MESSAGE_TYPE_ALERT, 0xFFFF, true, p.MSC_ALERT_BLOCK⟩,
    ⟨k.OMNICORE_MESSAGE_TYPE_ACTIVATION, 0xFFFF, true, p.MSC_ALERT_BLOCK⟩,
    ⟨k.OMNICORE_MESSAGE_TYPE_DEACTIVATION, 0xFFFF, true, p.MSC_ALERT_BLOCK⟩,
    ⟨k.MSC_TYPE_SIMPLE_SEND, k.MP_TX_PKT_V0, false, p.MSC_SEND_BLOCK⟩,
    ⟨k.MSC_TYPE_TRADE_OFFER, k.MP_TX_PKT_V0, false, p.MSC_DEX_BLOCK⟩,
    ⟨k.MSC_TYPE_TRADE_OFFER, k.MP_TX_PKT_V1, false, p.MSC_DEX_BLOCK⟩,
    ⟨k.MSC_TYPE_ACCEPT_OFFER_BTC, k.MP_TX_PKT_V0, false, p.MSC_DEX_BLOCK⟩,
    ⟨k.MSC_TYPE_CREATE_PROPERTY_FIXED, k.MP_TX_PKT_V0, false, p.MSC_SP_BLOCK⟩,
    ⟨k.MSC_TYPE_CREATE_PROPERTY_VARIABLE, k.MP_TX_PKT_V0, false, p.MSC_SP_BLOCK⟩,
    ⟨k.MSC_TYPE_CREATE_PROPERTY_VARIABLE, k.MP_TX_PKT_V1, false, p.MSC_SP_BLOCK⟩,
    ⟨k.MSC_TYPE_CLOSE_CROWDSALE, k.MP_TX_PKT_V0, false, p.MSC_SP_BLOCK⟩,
    ⟨k.MSC_TYPE_CREATE_PROPERTY_MANUAL, k.MP_TX_PKT_V0, false, p.MSC_MANUALSP_BLOCK⟩,
    ⟨k.MSC_TYPE_GRANT_PROPERTY_TOKENS, k.MP_TX_PKT_V0, false, p.MSC_MANUALSP_BLOCK⟩,
    ⟨k.MSC_TYPE_REVOKE_PROPERTY_TOKENS, k.MP_TX_PKT_V0, false, p.MSC_MANUALSP_BLOCK⟩,
    ⟨k.MSC_TYPE_CHANGE_ISSUER_ADDRESS, k.MP_TX_PKT_V0, false, p.MSC_MANUALSP_BLOCK⟩,
    ⟨k.MSC_TYPE_ENABLE_FREEZING, k.MP_TX_PKT_V0, false, p.MSC_MANUALSP_BLOCK⟩,
    ⟨k.MSC_TYPE_DISABLE_FREEZING, k.MP_TX_PKT_V0, false, p.MSC_MANUALSP_BLOCK⟩,
    ⟨k.MSC_TYPE_FREEZE_PROPERTY_TOKENS, k.MP_TX_PKT_V0, false, p.MSC_MANUALSP_BLOCK⟩,
    ⟨k.MSC_TYPE_UNFREEZE_PROPERTY_TOKENS, k.MP_TX_PKT_V0, false, p.MSC_MANUALSP_BLOCK⟩,
    ⟨k.MSC_TYPE_SEND_TO_OWNERS, k.MP_TX_PKT_V0, false, p.MSC_STO_BLOCK⟩,
    ⟨k.MSC_TYPE_SEND_TO_OWNERS, k.MP_TX_PKT_V1, false, p.MSC_STOV1_BLOCK⟩,
    ⟨k.MSC_TYPE_SEND_ALL, k.MP_TX_PKT_V0, false, p.MSC_SEND_ALL_BLOCK⟩,
    ⟨k.MSC_TYPE_ANYDATA, k.MP_TX_PKT_V0, true, p.MSC_ANYDATA_BLOCK⟩,
    ⟨k.MSC_TYPE_SEND_NONFUNGIBLE, k.MP_TX_PKT_V0, false, p.MSC_NONFUNGIBLE_BLOCK⟩,
    ⟨k.MSC_TYPE_NONFUNGIBLE_DATA, k.MP_TX_PKT_V0, false, p.MSC_NONFUNGIBLE_BLOCK⟩ ]

/-! ## Feature activation registry -/

/-- `GetFeatureName`. -/
def GetFeatureName (k : Header) (featureId : Nat) : String :=
  if featureId = k.FEATURE_STOV1 then "Cross-property Send To Owners"
  else if featureId = k.FEATURE_FREEZENOTICE then
    "Activate the waiting period for enabling freezing"
  else if featureId = k.FEATURE_FREEDEX then
    "Activate trading of any token on the distributed exchange"
  else if featureId = k.FEATURE_NONFUNGIBLE then "Uniquely identifiable tokens"
  else if featureId = k.FEATURE_NONFUNGIBLE_ISSUER then "NFT issuer data update by issuers only"
  else "Unknown feature"

/-- `IsFeatureActivated`: the `switch` selects the governing field, an unknown id
returns false at once. -/
def IsFeatureActivated (k : Header) (g : Globals) (featureId : Nat) (transactionBlock : Int) :
    Bool :=
  let params := ConsensusParamsCurrent g
  if featureId = k.FEATURE_STOV1 then decide (transactionBlock ≥ params.MSC_STOV1_BLOCK)
  else if featureId = k.FEATURE_FREEZENOTICE then
    decide (transactionBlock ≥ params.FREEZENOTICE_FEATURE_BLOCK)
  else if featureId = k.FEATURE_FREEDEX then
    decide (transactionBlock ≥ params.FREEDEX_FEATURE_BLOCK)
  else if featureId = k.FEATURE_NONFUNGIBLE then
    decide (transactionBlock ≥ params.MSC_NONFUNGIBLE_BLOCK)
  else if featureId = k.FEATURE_NONFUNGIBLE_ISSUER then
    decide (transactionBlock ≥ params.NONFUNGIBLETOKEN_ISSUER_DATA)
  else false

/-- The `switch` of `ActivateFeature`: writes the governing field and returns the
new globals together with the value of `supported` after the switch. -/
def activateSwitch (k : Header) (g : Globals) (featureId : Nat) (activationBlock : Int)
    (supported : Bool) : Globals × Bool :=
  if featureId = k.FEATURE_STOV1 then
    (MutableConsensusParams g (fun p => { p with MSC_STOV1_BLOCK := activationBlock }), supported)
  else if featureId = k.FEATURE_FREEZENOTICE then
    (MutableConsensusParams g (fun p => { p with FREEZENOTICE_FEATURE_BLOCK := activationBlock }),
      supported)
  else if featureId = k.FEATURE_FREEDEX then
    (MutableConsensusParams g (fun p => { p with FREEDEX_FEATURE_BLOCK := activationBlock }),
      supported)
  else if featureId = k.FEATURE_NONFUNGIBLE then
    (MutableConsensusParams g (fun p => { p with MSC_NONFUNGIBLE_BLOCK := activationBlock }),
      supported)
  else if featureId = k.FEATURE_NONFUNGIBLE_ISSUER then
    (MutableConsensusParams g (fun p => { p with NONFUNGIBLETOKEN_ISSUER_DATA := activationBlock }),
      supported)
  else (g, false)

/-- The alert text `ActivateFeature` builds with `strprintf` for an unsupported
activation. -/
def activationAlertText (featureId : Nat) (activationBlock : Int) (featureName : String) :
    String :=
  "Your client must be updated and will shutdown at block " ++ toString activationBlock ++
    " (unsupported feature " ++ toString featureId ++ " (\x27" ++ featureName ++
    "\x27) activated)\n"

/-- `ActivateFeature(featureId, activationBlock, minClientVersion, transactionBlock)`:
the returned boolean and the globals after the call.  The two ends of the notice
window are the exact sums; `ActivateFeatureInt32` wraps them as the compiled code
does. -/
def ActivateFeature (k : Header) (g : Globals) (featureId : Nat) (activationBlock : Int)
    (minClientVersion : Nat) (transactionBlock : Int) : Bool × Globals :=
  let params := ConsensusParamsCurrent g
  -- check activation block is allowed
  if activationBlock < transactionBlock + params.MIN_ACTIVATION_BLOCKS ∨
      activationBlock > transactionBlock + params.MAX_ACTIVATION_BLOCKS then
    (false, g)
  -- check whether the feature is already active
  else if IsFeatureActivated k g featureId transactionBlock then
    (false, g)
  else
    -- check feature is recognized and activation is successful
    let featureName := GetFeatureName k featureId
    let sw := activateSwitch k g featureId activationBlock
      (decide (k.OMNICORE_VERSION ≥ minClientVersion))
    let g1 := AddPendingActivation sw.1 featureId activationBlock minClientVersion featureName
    if !sw.2 then
      let alertText := activationAlertText featureId activationBlock featureName
      let g2 := AddAlert g1 "omnicore" k.ALERT_BLOCK_EXPIRY activationBlock alertText
      (true, DoWarning g2 alertText)
    else
      (true, g1)

/-- The alert text `DeactivateFeature` builds with `strprintf`. -/
def deactivationAlertText (featureId : Nat) (featureName : String) : String :=
  "An emergency deactivation of feature ID " ++ toString featureId ++ " (" ++ featureName ++
    ") has occurred."

/-- The `switch` of `DeactivateFeature`: the globals after the write, or `none`
for the `default` label, which returns false. -/
def deactivateSwitch (k : Header) (g : Globals) (featureId : Nat) : Option Globals :=
  if featureId = k.FEATURE_STOV1 then
    some (MutableConsensusParams g (fun p => { p with MSC_STOV1_BLOCK := 100000000 }))
  else if featureId = k.FEATURE_FREEZENOTICE then
    some (MutableConsensusParams g (fun p => { p with FREEZENOTICE_FEATURE_BLOCK := 100000000 }))
  else if featureId = k.FEATURE_FREEDEX then
    some (MutableConsensusParams g (fun p => { p with FREEDEX_FEATURE_BLOCK := 100000000 }))
  else if featureId = k.FEATURE_NONFUNGIBLE then
    some (MutableConsensusParams g (fun p => { p with MSC_NONFUNGIBLE_BLOCK := 100000000 }))
  else if featureId = k.FEATURE_NONFUNGIBLE_ISSUER then
    some (MutableConsensusParams g (fun p => { p with NONFUNGIBLETOKEN_ISSUER_DATA := 999999 }))
  else none

/-- `DeactivateFeature(featureId, transactionBlock)`: the returned boolean and the
globals after the call. -/
def DeactivateFeature (k : Header) (g : Globals) (featureId : Nat) (transactionBlock : Int) :
    Bool × Globals :=
  if !IsFeatureActivated k g featureId transactionBlock then
    (false, g)
  else
    let featureName := GetFeatureName k featureId
    match deactivateSwitch k g featureId with
    | none => (false, g)
    | some g1 =>
      let alertText := deactivationAlertText featureId featureName
      let g2 := AddAlert g1 "omnicore" k.ALERT_BLOCK_EXPIRY (transactionBlock + 1024) alertText
      (true, DoWarning g2 alertText)

/-! ## Permission resolver -/

/-- The loop of `IsTransactionTypeAllowed` over the rows that are still to be
visited. -/
def scanRestrictions (k : Header) (txBlock : Int) (txProperty txType version : Nat) :
    List TransactionRestriction → Bool
  | [] => false
  | entry :: rest =>
    if entry.txType ≠ txType ∨ entry.txVersion ≠ version then
      scanRestrictions k txBlock txProperty txType version rest
    -- a property identifier of 0 (= BTC) may be used as wildcard
    else if k.OMNI_PROPERTY_BTC = txProperty ∧ entry.allowWildcard = false then
      scanRestrictions k txBlock txProperty txType version rest
    -- transactions are not restricted in the test ecosystem
    else if k.isTestEcosystemProperty txProperty then true
    else if txBlock ≥ entry.activationBlock then true
    else scanRestrictions k txBlock txProperty txType version rest

/-- `IsTransactionTypeAllowed(txBlock, txProperty, txType, version)`. -/
def IsTransactionTypeAllowed (k : Header) (g : Globals) (txBlock : Int)
    (txProperty txType version : Nat) : Bool :=
  scanRestrictions k txBlock txProperty txType version
    (GetRestrictions k (ConsensusParamsCurrent g))

/-! ## Notice range of the three networks -/

/-- The notice range fields of the three parameter objects hold the values the
constructors give them.  No function of `rules.cpp` writes these fields. -/
def hasDefaultNoticeRange (g : Globals) : Prop :=
  g.mainConsensusParams.MIN_ACTIVATION_BLOCKS = CMainConsensusParams.MIN_ACTIVATION_BLOCKS ∧
  g.mainConsensusParams.MAX_ACTIVATION_BLOCKS = CMainConsensusParams.MAX_ACTIVATION_BLOCKS ∧
  g.testNetConsensusParams.MIN_ACTIVATION_BLOCKS =
    CTestNetConsensusParams.MIN_ACTIVATION_BLOCKS ∧
  g.testNetConsensusParams.MAX_ACTIVATION_BLOCKS =
    CTestNetConsensusParams.MAX_ACTIVATION_BLOCKS ∧
  g.regTestConsensusParams.MIN_ACTIVATION_BLOCKS =
    CRegTestConsensusParams.MIN_ACTIVATION_BLOCKS ∧
  g.regTestConsensusParams.MAX_ACTIVATION_BLOCKS =
    CRegTestConsensusParams.MAX_ACTIVATION_BLOCKS

/-! ## Concrete inputs -/

/-- The five feature ids `rules.cpp` recognises. -/
def recognisedFeatures (k : Header) : List Nat :=
  [k.FEATURE_STOV1, k.FEATURE_FREEZENOTICE, k.FEATURE_FREEDEX, k.FEATURE_NONFUNGIBLE,
    k.FEATURE_NONFUNGIBLE_ISSUER]

/-- A header used to evaluate the definitions on concrete inputs.  Transaction
types, versions and property ids carry the numbers of the Omni layer protocol;
the test ecosystem is property 2 and every id from 0x80000003 on.  The theorems
do not depend on these values: they hold for every header. -/
def sampleHeader : Header :=
  { FEATURE_STOV1 := 10
    FEATURE_FREEZENOTICE := 14
    FEATURE_FREEDEX := 15
    FEATURE_NONFUNGIBLE := 16
    FEATURE_NONFUNGIBLE_ISSUER := 18
    OMNICORE_VERSION := 1200000
    ALERT_BLOCK_EXPIRY := 1
    MP_TX_PKT_V0 := 0
    MP_TX_PKT_V1 := 1
    OMNICORE_MESSAGE_TYPE_ALERT := 65535
    OMNICORE_MESSAGE_TYPE_ACTIVATION := 65534
    OMNICORE_MESSAGE_TYPE_DEACTIVATION := 65533
    MSC_TYPE_SIMPLE_SEND := 0
    MSC_TYPE_TRADE_OFFER := 20
    MSC_TYPE_ACCEPT_OFFER_BTC := 22
    MSC_TYPE_CREATE_PROPERTY_FIXED := 50
    MSC_TYPE_CREATE_PROPERTY_VARIABLE := 51
    MSC_TYPE_CLOSE_CROWDSALE := 53
    MSC_TYPE_CREATE_PROPERTY_MANUAL := 54
    MSC_TYPE_GRANT_PROPERTY_TOKENS := 55
    MSC_TYPE_REVOKE_PROPERTY_TOKENS := 56
    MSC_TYPE_CHANGE_ISSUER_ADDRESS := 70
    MSC_TYPE_ENABLE_FREEZING := 71
    MSC_TYPE_DISABLE_FREEZING := 72
    MSC_TYPE_FREEZE_PROPERTY_TOKENS := 185
    MSC_TYPE_UNFREEZE_PROPERTY_TOKENS := 186
    MSC_TYPE_SEND_TO_OWNERS := 3
    MSC_TYPE_SEND_ALL := 4
    MSC_TYPE_ANYDATA := 200
    MSC_TYPE_SEND_NONFUNGIBLE := 5
    MSC_TYPE_NONFUNGIBLE_DATA := 201
    MSC_TYPE_OFFER_ACCEPT_A_BET := 40
    OMNI_PROPERTY_BTC := 0
    OMNI_PROPERTY_MSC := 1
    OMNI_PROPERTY_TMSC := 2
    isTestEcosystemProperty := fun propertyId =>
      decide (propertyId = 2) || decide (0x80000003 ≤ propertyId) }

/-! ## Script types -/

/-- The values of the `txnouttype` enumerators that `rules.cpp` switches on; the
enumeration is declared in `script/standard.h`, which is not among the sources. -/
structure ScriptTypes where
  TX_PUBKEYHASH : Int
  TX_SCRIPTHASH : Int
  TX_MULTISIG : Int
  TX_NULL_DATA : Int

/-- `IsAllowedInputType(whichType, nBlock)`: any type other than the two case
labels leaves the `switch` and returns false. -/
def IsAllowedInputType (t : ScriptTypes) (g : Globals) (whichType : Int) (nBlock : Int) : Bool :=
  let params := ConsensusParamsCurrent g
  if whichType = t.TX_PUBKEYHASH then decide (params.PUBKEYHASH_BLOCK ≤ nBlock)
  else if whichType = t.TX_SCRIPTHASH then decide (params.SCRIPTHASH_BLOCK ≤ nBlock)
  else false

/-- `IsAllowedOutputType(whichType, nBlock)`: any type other than the four case
labels leaves the `switch` and returns false. -/
def IsAllowedOutputType (t : ScriptTypes) (g : Globals) (whichType : Int) (nBlock : Int) : Bool :=
  let params := ConsensusParamsCurrent g
  if whichType = t.TX_PUBKEYHASH then decide (params.PUBKEYHASH_BLOCK ≤ nBlock)
  else if whichType = t.TX_SCRIPTHASH then decide (params.SCRIPTHASH_BLOCK ≤ nBlock)
  else if whichType = t.TX_MULTISIG then decide (params.MULTISIG_BLOCK ≤ nBlock)
  else if whichType = t.TX_NULL_DATA then decide (params.NULLDATA_BLOCK ≤ nBlock)
  else false

/-- Script type values used to evaluate the definitions on concrete inputs. -/
def sampleScriptTypes : ScriptTypes :=
  { TX_PUBKEYHASH := 2, TX_SCRIPTHASH := 3, TX_MULTISIG := 4, TX_NULL_DATA := 5 }

/-! ## Checkpoint verifier -/

/-- A consensus checkpoint: block height, expected block hash, expected consensus
hash.  A `uint256` is a natural number; hashes are only compared. -/
structure ConsensusCheckpoint where
  blockHeight : Int
  blockHash : Nat
  consensusHash : Nat
deriving DecidableEq, Repr

/-- A transaction checkpoint: block height and the hash of a transaction that is
expected to exist by then. -/
structure TransactionCheckpoint where
  blockHeight : Int
  txHash : Nat
deriving DecidableEq, Repr

/-- `CConsensusParams::GetCheckpoints()`, the base class method. -/
def CConsensusParams_GetCheckpoints : List ConsensusCheckpoint := []

/-- `CConsensusParams::GetTransactions()`, the base class method. -/
def CConsensusParams_GetTransactions : List TransactionCheckpoint := []

/-- `CMainConsensusParams::GetCheckpoints()`. -/
def CMainConsensusParams_GetCheckpoints : List ConsensusCheckpoint := []

/-- `CMainConsensusParams::GetTransactions()`. -/
def CMainConsensusParams_GetTransactions : List TransactionCheckpoint := []

/-- `ConsensusParams().GetCheckpoints()`: the main-network object uses the
override of `CMainConsensusParams`, the other two objects the base class method
(`rules.cpp` defines no other override). -/
def GetCheckpoints (g : Globals) : List ConsensusCheckpoint :=
  if g.NetworkIDString = "main" then CMainConsensusParams_GetCheckpoints
  else if g.NetworkIDString = "test" then CConsensusParams_GetCheckpoints
  else if g.NetworkIDString = "regtest" then CConsensusParams_GetCheckpoints
  else CMainConsensusParams_GetCheckpoints

/-- `ConsensusParams().GetTransactions()`, dispatched like `GetCheckpoints`. -/
def GetTransactions (g : Globals) : List TransactionCheckpoint :=
  if g.NetworkIDString = "main" then CMainConsensusParams_GetTransactions
  else if g.NetworkIDString = "test" then CConsensusParams_GetTransactions
  else if g.NetworkIDString = "regtest" then CConsensusParams_GetTransactions
  else CMainConsensusParams_GetTransactions

/-- The loop of `VerifyCheckpoint` over the checkpoints still to be visited.
`consensusHash` is the value `GetConsensusHash()` returns, a function of the
ledger state that is not among the sources; the loop reads it only after the
block hash of a checkpoint has matched. -/
def scanCheckpoints (consensusHash : Nat) (block : Int) (blockHash : Nat) :
    List ConsensusCheckpoint → Bool
  | [] => true
  | checkpoint :: rest =>
    if block ≠ checkpoint.blockHeight then scanCheckpoints consensusHash block blockHash rest
    else if blockHash ≠ checkpoint.blockHash then false
    -- only verify if there is a checkpoint to verify against
    else if consensusHash ≠ checkpoint.consensusHash then false
    else true

/-- The body of `VerifyCheckpoint(block, blockHash)` over a given checkpoint list.
The remainder is the C++ one, truncated towards zero. -/
def VerifyCheckpointOver (vCheckpoints : List ConsensusCheckpoint) (consensusHash : Nat)
    (block : Int) (blockHash : Nat) : Bool :=
  -- we only checkpoint every 10,000 blocks
  if Int.tmod block 10000 ≠ 0 then true
  else scanCheckpoints consensusHash block blockHash vCheckpoints

/-- `VerifyCheckpoint(block, blockHash)` on the list of the selected network. -/
def VerifyCheckpoint (g : Globals) (consensusHash : Nat) (block : Int) (blockHash : Nat) : Bool :=
  VerifyCheckpointOver (GetCheckpoints g) consensusHash block blockHash

/-- The body of `VerifyTransactionExistence(block)` over a given list of
transaction checkpoints; `existsTx` is `pDbTransactionList->exists`, the
membership test of the transaction history index, which is not among the
sources. -/
def VerifyTransactionExistenceOver (existsTx : Nat → Bool) (block : Int) :
    List TransactionCheckpoint → Bool
  | [] => true
  | checkpoint :: rest =>
    if block < checkpoint.blockHeight then VerifyTransactionExistenceOver existsTx block rest
    else if !existsTx checkpoint.txHash then false
    else VerifyTransactionExistenceOver existsTx block rest

/-- `VerifyTransactionExistence(block)` on the list of the selected network. -/
def VerifyTransactionExistence (g : Globals) (existsTx : Nat → Bool) (block : Int) : Bool :=
  VerifyTransactionExistenceOver existsTx block (GetTransactions g)

/-! ## Default parameters: thresholds -/

/-- Every height threshold of a parameter object is non-negative. -/
def thresholdsNonneg (p : CConsensusParams) : Prop :=
  0 ≤ p.GENESIS_BLOCK ∧ 0 ≤ p.MIN_ACTIVATION_BLOCKS ∧ 0 ≤ p.MAX_ACTIVATION_BLOCKS ∧
  0 ≤ p.OMNI_FREEZE_WAIT_PERIOD ∧ 0 ≤ p.PUBKEYHASH_BLOCK ∧ 0 ≤ p.SCRIPTHASH_BLOCK ∧
  0 ≤ p.MULTISIG_BLOCK ∧ 0 ≤ p.NULLDATA_BLOCK ∧ 0 ≤ p.MSC_ALERT_BLOCK ∧
  0 ≤ p.MSC_SEND_BLOCK ∧ 0 ≤ p.MSC_DEX_BLOCK ∧ 0 ≤ p.MSC_SP_BLOCK ∧
  0 ≤ p.MSC_MANUALSP_BLOCK ∧ 0 ≤ p.MSC_STO_BLOCK ∧ 0 ≤ p.MSC_SEND_ALL_BLOCK ∧
  0 ≤ p.MSC_STOV1_BLOCK ∧ 0 ≤ p.MSC_ANYDATA_BLOCK ∧ 0 ≤ p.MSC_NONFUNGIBLE_BLOCK ∧
  0 ≤ p.FREEZENOTICE_FEATURE_BLOCK ∧ 0 ≤ p.FREEDEX_FEATURE_BLOCK ∧
  0 ≤ p.NONFUNGIBLETOKEN_ISSUER_DATA

/-! ## Integer range of the compiled code -/

/-- The value a 32-bit `int` holds after an addition whose exact result is `x`:
the compiled code wraps around in two's complement. -/
def int32 (x : Int) : Int :=
  (x + 2147483648) % 4294967296 - 2147483648

/-- The exact value `x` is representable in a 32-bit `int`. -/
def isInt32 (x : Int) : Prop :=
  -2147483648 ≤ x ∧ x ≤ 2147483647

/-- `ActivateFeature(featureId, activationBlock, minClientVersion, transactionBlock)`
as the compiled code runs it: `transactionBlock + params.MIN_ACTIVATION_BLOCKS`
and `transactionBlock + params.MAX_ACTIVATION_BLOCKS` are `int` additions and wrap
around in 32 bits.  The returned boolean and the globals after the call. -/
def ActivateFeatureInt32 (k : Header) (g : Globals) (featureId : Nat) (activationBlock : Int)
    (minClientVersion : Nat) (transactionBlock : Int) : Bool × Globals :=
  let params := ConsensusParamsCurrent g
  -- check activation block is allowed
  if activationBlock < int32 (transactionBlock + params.MIN_ACTIVATION_BLOCKS) ∨
      activationBlock > int32 (transactionBlock + params.MAX_ACTIVATION_BLOCKS) then
    (false, g)
  -- check whether the feature is already active
  else if IsFeatureActivated k g featureId transactionBlock then
    (false, g)
  else
    -- check feature is recognized and activation is successful
    let featureName := GetFeatureName k featureId
    let sw := activateSwitch k g featureId activationBlock
      (decide (k.OMNICORE_VERSION ≥ minClientVersion))
    let g1 := AddPendingActivation sw.1 featureId activationBlock minClientVersion featureName
    if !sw.2 then
      let alertText := activationAlertText featureId activationBlock featureName
      let g2 := AddAlert g1 "omnicore" k.ALERT_BLOCK_EXPIRY activationBlock alertText
      (true, DoWarning g2 alertText)
    else
      (true, g1)

/-! ## Reads and writes of the selected parameter object -/

/-- A write through `MutableConsensusParams()` is what `ConsensusParams()` reads
back. -/
theorem ConsensusParamsCurrent_MutableConsensusParams (g : Globals)
    (f : CConsensusParams → CConsensusParams) :
    ConsensusParamsCurrent (MutableConsensusParams g f) = f (ConsensusParamsCurrent g) := by
  unfold ConsensusParamsCurrent ConsensusParams MutableConsensusParams
  by_cases h1 : g.NetworkIDString = "main"
  · simp [h1]
  · by_cases h2 : g.NetworkIDString = "test"
    · simp [h2]
    · by_cases h3 : g.NetworkIDString = "regtest"
      · simp [h3]
      · simp [h1, h2, h3]

/-- Recording an alert does not touch the parameter objects. -/
theorem ConsensusParamsCurrent_AddAlert (g : Globals) (s : String) (t : Nat) (e : Int)
    (m : String) : ConsensusParamsCurrent (AddAlert g s t e m) = ConsensusParamsCurrent g := rfl

/-- Recording a warning does not touch the parameter objects. -/
theorem ConsensusParamsCurrent_DoWarning (g : Globals) (m : String) :
    ConsensusParamsCurrent (DoWarning g m) = ConsensusParamsCurrent g := rfl

/-- Recording a pending activation does not touch the parameter objects. -/
theorem ConsensusParamsCurrent_AddPendingActivation (g : Globals) (i : Nat) (b : Int) (v : Nat)
    (n : String) :
    ConsensusParamsCurrent (AddPendingActivation g i b v n) = ConsensusParamsCurrent g := rfl

/-- The answer of `IsFeatureActivated` depends on the globals only through the
selected parameter object. -/
theorem IsFeatureActivated_congr (k : Header) (g g' : Globals) (featureId : Nat) (h : Int)
    (hp : ConsensusParamsCurrent g' = ConsensusParamsCurrent g) :
    IsFeatureActivated k g' featureId h = IsFeatureActivated k g featureId h := by
  unfold IsFeatureActivated
  rw [hp]

/-- An id outside the five recognised ones is never reported as activated. -/
theorem IsFeatureActivated_unrecognised (k : Header) (g : Globals) (featureId : Nat) (h : Int)
    (hf : featureId ∉ recognisedFeatures k) : IsFeatureActivated k g featureId h = false := by
  simp only [recognisedFeatures, List.mem_cons, List.mem_singleton, not_or] at hf
  obtain ⟨h1, h2, h3, h4, h5, -⟩ := hf
  simp [IsFeatureActivated, h1, h2, h3, h4, h5]

/-- For an id outside the five recognised ones the `switch` of `ActivateFeature`
takes the `default` label. -/
theorem activateSwitch_unrecognised (k : Header) (g : Globals) (featureId : Nat) (b : Int)
    (s : Bool) (hf : featureId ∉ recognisedFeatures k) :
    activateSwitch k g featureId b s = (g, false) := by
  simp only [recognisedFeatures, List.mem_cons, List.mem_singleton, not_or] at hf
  obtain ⟨h1, h2, h3, h4, h5, -⟩ := hf
  simp [activateSwitch, h1, h2, h3, h4, h5]

/-- After the `switch` of `ActivateFeature` on a recognised id, the feature is
activated exactly from the activation block on. -/
theorem IsFeatureActivated_activateSwitch (k : Header) (g : Globals) (featureId : Nat)
    (b : Int) (s : Bool) (h : Int) (hf : featureId ∈ recognisedFeatures k) :
    IsFeatureActivated k (activateSwitch k g featureId b s).1 featureId h = decide (h ≥ b) := by
  simp only [recognisedFeatures, List.mem_cons, List.mem_singleton] at hf
  by_cases h1 : featureId = k.FEATURE_STOV1
  · subst h1
    simp [activateSwitch, IsFeatureActivated, ConsensusParamsCurrent_MutableConsensusParams]
  by_cases h2 : featureId = k.FEATURE_FREEZENOTICE
  · subst h2
    simp [activateSwitch, IsFeatureActivated, h1, ConsensusParamsCurrent_MutableConsensusParams]
  by_cases h3 : featureId = k.FEATURE_FREEDEX
  · subst h3
    simp [activateSwitch, IsFeatureActivated, h1, h2,
      ConsensusParamsCurrent_MutableConsensusParams]
  by_cases h4 : featureId = k.FEATURE_NONFUNGIBLE
  · subst h4
    simp [activateSwitch, IsFeatureActivated, h1, h2, h3,
      ConsensusParamsCurrent_MutableConsensusParams]
  by_cases h5 : featureId = k.FEATURE_NONFUNGIBLE_ISSUER
  · subst h5
    simp [activateSwitch, IsFeatureActivated, h1, h2, h3, h4,
      ConsensusParamsCurrent_MutableConsensusParams]
  · simp [h1, h2, h3, h4, h5] at hf

/-- The globals `ActivateFeature` returns when neither refusal applies differ from
the globals after its `switch` only in the recorded activations, alerts and
warnings. -/
theorem ActivateFeature_params (k : Header) (g : Globals) (featureId : Nat) (b : Int) (v : Nat)
    (c : Int) (hok : (ActivateFeature k g featureId b v c).1 = true) :
    ConsensusParamsCurrent (ActivateFeature k g featureId b v c).2 =
      ConsensusParamsCurrent (activateSwitch k g featureId b (decide (k.OMNICORE_VERSION ≥ v))).1 := by
  unfold ActivateFeature at hok ⊢
  simp only at hok ⊢
  split_ifs at hok ⊢ <;> rfl

/-- For a recognised id the `switch` of `DeactivateFeature` writes the governing
field, and the feature is then not activated at any height below 999999. -/
theorem deactivateSwitch_recognised (k : Header) (g : Globals) (featureId : Nat)
    (hf : featureId ∈ recognisedFeatures k) :
    ∃ g1, deactivateSwitch k g featureId = some g1 ∧
      ∀ h : Int, h < 999999 → IsFeatureActivated k g1 featureId h = false := by
  simp only [recognisedFeatures, List.mem_cons, List.mem_singleton] at hf
  by_cases h1 : featureId = k.FEATURE_STOV1
  · subst h1
    refine ⟨_, by rw [deactivateSwitch, if_pos rfl], fun h hh => ?_⟩
    simp [IsFeatureActivated, ConsensusParamsCurrent_MutableConsensusParams]
    omega
  by_cases h2 : featureId = k.FEATURE_FREEZENOTICE
  · subst h2
    refine ⟨_, by rw [deactivateSwitch, if_neg h1, if_pos rfl], fun h hh => ?_⟩
    simp [IsFeatureActivated, h1, ConsensusParamsCurrent_MutableConsensusParams]
    omega
  by_cases h3 : featureId = k.FEATURE_FREEDEX
  · subst h3
    refine ⟨_, by rw [deactivateSwitch, if_neg h1, if_neg h2, if_pos rfl], fun h hh => ?_⟩
    simp [IsFeatureActivated, h1, h2, ConsensusParamsCurrent_MutableConsensusParams]
    omega
  by_cases h4 : featureId = k.FEATURE_NONFUNGIBLE
  · subst h4
    refine ⟨_, by rw [deactivateSwitch, if_neg h1, if_neg h2, if_neg h3, if_pos rfl],
      fun h hh => ?_⟩
    simp [IsFeatureActivated, h1, h2, h3, ConsensusParamsCurrent_MutableConsensusParams]
    omega
  by_cases h5 : featureId = k.FEATURE_NONFUNGIBLE_ISSUER
  · subst h5
    refine ⟨_, by rw [deactivateSwitch, if_neg h1, if_neg h2, if_neg h3, if_neg h4,
      if_pos rfl], fun h hh => ?_⟩
    simp [IsFeatureActivated, h1, h2, h3, h4, ConsensusParamsCurrent_MutableConsensusParams]
    omega
  · simp [h1, h2, h3, h4, h5] at hf

/-- Deactivating a recognised feature that is active at a height below 999999
succeeds and leaves the feature inactive at that height. -/
theorem DeactivateFeature_clears_below (k : Header) (g : Globals) (featureId : Nat) (h : Int)
    (hf : featureId ∈ recognisedFeatures k) (hact : IsFeatureActivated k g featureId h = true)
    (hlt : h < 999999) :
    (DeactivateFeature k g featureId h).1 = true ∧
      IsFeatureActivated k (DeactivateFeature k g featureId h).2 featureId h = false := by
  obtain ⟨g1, hs, hoff⟩ := deactivateSwitch_recognised k g featureId hf
  simp only [DeactivateFeature, hact, hs, Bool.not_true, Bool.false_eq_true, if_false, true_and]
  exact (IsFeatureActivated_congr k g1 _ featureId h rfl).trans (hoff h hlt)

/-- When the notice range is the compiled-in one, the lower bound of the selected
network does not exceed the upper bound. -/
theorem min_le_max_of_hasDefaultNoticeRange (g : Globals) (hr : hasDefaultNoticeRange g) :
    (ConsensusParamsCurrent g).MIN_ACTIVATION_BLOCKS ≤
      (ConsensusParamsCurrent g).MAX_ACTIVATION_BLOCKS := by
  obtain ⟨a1, a2, b1, b2, c1, c2⟩ := hr
  unfold ConsensusParamsCurrent ConsensusParams
  split_ifs
  · rw [a1, a2]; decide
  · rw [b1, b2]; decide
  · rw [c1, c2]; decide
  · rw [a1, a2]; decide

/-- A request inside the notice window for a feature that is not active at the
current height is accepted. -/
theorem ActivateFeature_accepts (k : Header) (g : Globals) (featureId : Nat)
    (activationBlock : Int) (minClientVersion : Nat) (transactionBlock : Int)
    (hlo : transactionBlock + (ConsensusParamsCurrent g).MIN_ACTIVATION_BLOCKS ≤ activationBlock)
    (hhi : activationBlock ≤ transactionBlock + (ConsensusParamsCurrent g).MAX_ACTIVATION_BLOCKS)
    (hoff : IsFeatureActivated k g featureId transactionBlock = false) :
    (ActivateFeature k g featureId activationBlock minClientVersion transactionBlock).1 =
      true := by
  unfold ActivateFeature
  simp only [hoff]
  rw [if_neg (by omega)]
  simp only [Bool.false_eq_true, if_false]
  split_ifs <;> rfl

/-- On the test network `ConsensusParams()` is the test-network object. -/
theorem ConsensusParamsCurrent_test (g : Globals) (hnet : g.NetworkIDString = "test") :
    ConsensusParamsCurrent g = g.testNetConsensusParams := by
  simp [ConsensusParamsCurrent, ConsensusParams, hnet]

/-! ## Feature activation registry: claims -/

/-- C1 (code defect): whenever FEATURE_NONFUNGIBLE_ISSUER (an id distinct from the
other four, as the case labels of a `switch` are) is active at a height of at
least 999999, `DeactivateFeature` returns true, writes 999999 into the governing
field, and the feature is still reported active at that height afterwards. -/
theorem DeactivateFeature_issuer_remains_active (k : Header) (g : Globals) (h : Int)
    (hne : k.FEATURE_NONFUNGIBLE_ISSUER ∉
      [k.FEATURE_STOV1, k.FEATURE_FREEZENOTICE, k.FEATURE_FREEDEX, k.FEATURE_NONFUNGIBLE])
    (hact : IsFeatureActivated k g k.FEATURE_NONFUNGIBLE_ISSUER h = true)
    (hge : 999999 ≤ h) :
    (DeactivateFeature k g k.FEATURE_NONFUNGIBLE_ISSUER h).1 = true ∧
      (ConsensusParamsCurrent
        (DeactivateFeature k g k.FEATURE_NONFUNGIBLE_ISSUER h).2).NONFUNGIBLETOKEN_ISSUER_DATA
          = 999999 ∧
      IsFeatureActivated k (DeactivateFeature k g k.FEATURE_NONFUNGIBLE_ISSUER h).2
        k.FEATURE_NONFUNGIBLE_ISSUER h = true := by
  simp only [List.mem_cons, List.mem_singleton, List.not_mem_nil, or_false, not_or] at hne
  obtain ⟨h1, h2, h3, h4⟩ := hne
  have hs : deactivateSwitch k g k.FEATURE_NONFUNGIBLE_ISSUER =
      some (MutableConsensusParams g (fun p => { p with NONFUNGIBLETOKEN_ISSUER_DATA := 999999 })) := by
    rw [deactivateSwitch, if_neg h1, if_neg h2, if_neg h3, if_neg h4, if_pos rfl]
  have hcur : ConsensusParamsCurrent (DeactivateFeature k g k.FEATURE_NONFUNGIBLE_ISSUER h).2 =
      { ConsensusParamsCurrent g with NONFUNGIBLETOKEN_ISSUER_DATA := 999999 } := by
    simp only [DeactivateFeature, hact, hs, Bool.not_true, Bool.false_eq_true, if_false]
    exact ConsensusParamsCurrent_MutableConsensusParams g _
  refine ⟨by simp [DeactivateFeature, hact, hs], by rw [hcur], ?_⟩
  unfold IsFeatureActivated
  simp only [hcur, if_neg h1, if_neg h2, if_neg h3, if_neg h4, if_true]
  exact decide_eq_true hge

/-- Witness for C1: the test network with its compiled-in parameters and height
1000000, which is below the sentinel 100000000. -/
theorem DeactivateFeature_issuer_remains_active_witness :
    IsFeatureActivated sampleHeader (initialGlobals "test")
        sampleHeader.FEATURE_NONFUNGIBLE_ISSUER 1000000 = true ∧
      (1000000 : Int) < 100000000 ∧
      (DeactivateFeature sampleHeader (initialGlobals "test")
        sampleHeader.FEATURE_NONFUNGIBLE_ISSUER 1000000).1 = true ∧
      (ConsensusParamsCurrent (DeactivateFeature sampleHeader (initialGlobals "test")
        sampleHeader.FEATURE_NONFUNGIBLE_ISSUER 1000000).2).NONFUNGIBLETOKEN_ISSUER_DATA
          = 999999 ∧
      IsFeatureActivated sampleHeader
        (DeactivateFeature sampleHeader (initialGlobals "test")
          sampleHeader.FEATURE_NONFUNGIBLE_ISSUER 1000000).2
        sampleHeader.FEATURE_NONFUNGIBLE_ISSUER 1000000 = true :=
  ⟨by decide, by decide,
    DeactivateFeature_issuer_remains_active sampleHeader (initialGlobals "test") 1000000
      (by decide) (by decide) (by decide)⟩

/-- With exact sums: for a feature id that is none of the five recognised ids,
`ActivateFeature` returns true exactly when the target height lies inside the
notice window `[current + MIN_ACTIVATION_BLOCKS, current + MAX_ACTIVATION_BLOCKS]`
and false otherwise; in both cases the three parameter objects keep their
values. -/
theorem ActivateFeature_unrecognised (k : Header) (g : Globals) (featureId : Nat)
    (activationBlock : Int) (minClientVersion : Nat) (transactionBlock : Int)
    (hf : featureId ∉ recognisedFeatures k) :
    ((ActivateFeature k g featureId activationBlock minClientVersion transactionBlock).1 = true ↔
        transactionBlock + (ConsensusParamsCurrent g).MIN_ACTIVATION_BLOCKS ≤ activationBlock ∧
        activationBlock ≤ transactionBlock + (ConsensusParamsCurrent g).MAX_ACTIVATION_BLOCKS) ∧
      (ActivateFeature k g featureId activationBlock minClientVersion
        transactionBlock).2.mainConsensusParams = g.mainConsensusParams ∧
      (ActivateFeature k g featureId activationBlock minClientVersion
        transactionBlock).2.testNetConsensusParams = g.testNetConsensusParams ∧
      (ActivateFeature k g featureId activationBlock minClientVersion
        transactionBlock).2.regTestConsensusParams = g.regTestConsensusParams := by
  have hoff := IsFeatureActivated_unrecognised k g featureId transactionBlock hf
  have hsw := activateSwitch_unrecognised k g featureId activationBlock
    (decide (k.OMNICORE_VERSION ≥ minClientVersion)) hf
  unfold ActivateFeature
  simp only [hoff, hsw, Bool.false_eq_true, if_false, Bool.not_false, if_true]
  split_ifs with hw
  · refine ⟨⟨fun h => by simp at h, fun h => ?_⟩, rfl, rfl, rfl⟩
    rcases hw with hw | hw <;> omega
  · refine ⟨⟨fun _ => ?_, fun _ => rfl⟩, rfl, rfl, rfl⟩
    constructor <;> omega

/-- C4: when `ActivateFeature` returns true for a recognised feature, the feature
is afterwards inactive one block before the target height and active at the
target height. -/
theorem ActivateFeature_effective_at_target (k : Header) (g : Globals) (featureId : Nat)
    (activationBlock : Int) (minClientVersion : Nat) (transactionBlock : Int)
    (hf : featureId ∈ recognisedFeatures k)
    (hok : (ActivateFeature k g featureId activationBlock minClientVersion
      transactionBlock).1 = true) :
    IsFeatureActivated k
        (ActivateFeature k g featureId activationBlock minClientVersion transactionBlock).2
        featureId (activationBlock - 1) = false ∧
      IsFeatureActivated k
        (ActivateFeature k g featureId activationBlock minClientVersion transactionBlock).2
        featureId activationBlock = true := by
  have hp := ActivateFeature_params k g featureId activationBlock minClientVersion
    transactionBlock hok
  constructor
  · rw [IsFeatureActivated_congr k _ _ featureId _ hp,
      IsFeatureActivated_activateSwitch k g featureId _ _ _ hf]
    simp
  · rw [IsFeatureActivated_congr k _ _ featureId _ hp,
      IsFeatureActivated_activateSwitch k g featureId _ _ _ hf]
    simp

/-- Witness for C4: FEATURE_FREEDEX on the regtest network, target 107 requested
at height 100. -/
theorem ActivateFeature_effective_at_target_witness :
    (ActivateFeature sampleHeader (initialGlobals "regtest") sampleHeader.FEATURE_FREEDEX
        107 1 100).1 = true ∧
      IsFeatureActivated sampleHeader
        (ActivateFeature sampleHeader (initialGlobals "regtest") sampleHeader.FEATURE_FREEDEX
          107 1 100).2 sampleHeader.FEATURE_FREEDEX (107 - 1) = false ∧
      IsFeatureActivated sampleHeader
        (ActivateFeature sampleHeader (initialGlobals "regtest") sampleHeader.FEATURE_FREEDEX
          107 1 100).2 sampleHeader.FEATURE_FREEDEX 107 = true :=
  ⟨by decide,
    ActivateFeature_effective_at_target sampleHeader (initialGlobals "regtest")
      sampleHeader.FEATURE_FREEDEX 107 1 100 (by decide) (by decide)⟩

/-- C7: deactivating a feature (recognised or not) that is not active at the
current height returns false and leaves the globals (parameter objects, alerts,
warnings) unchanged. -/
theorem DeactivateFeature_fails_closed (k : Header) (g : Globals) (featureId : Nat)
    (transactionBlock : Int) (h : IsFeatureActivated k g featureId transactionBlock = false) :
    DeactivateFeature k g featureId transactionBlock = (false, g) := by
  simp [DeactivateFeature, h]

/-- Witness for C7: FEATURE_STOV1 is not active at height 500 on the main
network. -/
theorem DeactivateFeature_fails_closed_witness :
    DeactivateFeature sampleHeader (initialGlobals "main") sampleHeader.FEATURE_STOV1 500 =
      (false, initialGlobals "main") :=
  DeactivateFeature_fails_closed sampleHeader (initialGlobals "main")
    sampleHeader.FEATURE_STOV1 500 (by decide)

/-- C5: with the compiled-in notice range of the three networks, for every current
height and every feature that is not active there, a target one block below
`current + MIN_ACTIVATION_BLOCKS` is refused and the target
`current + MIN_ACTIVATION_BLOCKS` is accepted. -/
theorem ActivateFeature_lower_bound_inclusive (k : Header) (g : Globals) (featureId : Nat)
    (minClientVersion : Nat) (transactionBlock : Int) (hr : hasDefaultNoticeRange g)
    (hoff : IsFeatureActivated k g featureId transactionBlock = false) :
    (ActivateFeature k g featureId
        (transactionBlock + (ConsensusParamsCurrent g).MIN_ACTIVATION_BLOCKS - 1)
        minClientVersion transactionBlock).1 = false ∧
      (ActivateFeature k g featureId
        (transactionBlock + (ConsensusParamsCurrent g).MIN_ACTIVATION_BLOCKS)
        minClientVersion transactionBlock).1 = true := by
  have hle := min_le_max_of_hasDefaultNoticeRange g hr
  constructor
  · unfold ActivateFeature
    simp only
    rw [if_pos (Or.inl (by omega))]
  · unfold ActivateFeature
    simp only [hoff]
    rw [if_neg (by omega)]
    simp only [Bool.false_eq_true, if_false]
    split_ifs <;> rfl

/-- Witness for C5: FEATURE_STOV1 on the regtest network at height 100: target 104
is refused, target 105 is accepted. -/
theorem ActivateFeature_lower_bound_inclusive_witness :
    (ActivateFeature sampleHeader (initialGlobals "regtest") sampleHeader.FEATURE_STOV1
        (100 + (ConsensusParamsCurrent (initialGlobals "regtest")).MIN_ACTIVATION_BLOCKS - 1)
        1 100).1 = false ∧
      (ActivateFeature sampleHeader (initialGlobals "regtest") sampleHeader.FEATURE_STOV1
        (100 + (ConsensusParamsCurrent (initialGlobals "regtest")).MIN_ACTIVATION_BLOCKS)
        1 100).1 = true :=
  ActivateFeature_lower_bound_inclusive sampleHeader (initialGlobals "regtest")
    sampleHeader.FEATURE_STOV1 1 100 ⟨rfl, rfl, rfl, rfl, rfl, rfl⟩ (by decide)

/-- C3 (counterexample): from the compiled-in parameters of the test network,
where every feature block is 0, FEATURE_STOV1 is already active at height 10 and
the first step of the scenario, `ActivateFeature(FEATURE_STOV1, 50, 1, 10)`,
returns false. -/
theorem scenario_first_step_refused :
    IsFeatureActivated sampleHeader (initialGlobals "test") sampleHeader.FEATURE_STOV1 10 =
        true ∧
      (ActivateFeature sampleHeader (initialGlobals "test") sampleHeader.FEATURE_STOV1 50 1
        10).1 = false := by
  decide

/-- C3 (amended): on the test network with notice range 0 to 9999999, from any
state in which the recognised feature X is not active at height 10:
`ActivateFeature(X, 50, 1, 10)` returns true, X is then inactive at 49 and active
at 50, `DeactivateFeature(X, 60)` returns true, and X is then inactive at 60. -/
theorem scenario_on_test_network (k : Header) (g : Globals) (X : Nat)
    (hnet : g.NetworkIDString = "test")
    (hmin : g.testNetConsensusParams.MIN_ACTIVATION_BLOCKS = 0)
    (hmax : g.testNetConsensusParams.MAX_ACTIVATION_BLOCKS = 9999999)
    (hX : X ∈ recognisedFeatures k) (hoff : IsFeatureActivated k g X 10 = false) :
    (ActivateFeature k g X 50 1 10).1 = true ∧
      IsFeatureActivated k (ActivateFeature k g X 50 1 10).2 X 49 = false ∧
      IsFeatureActivated k (ActivateFeature k g X 50 1 10).2 X 50 = true ∧
      (DeactivateFeature k (ActivateFeature k g X 50 1 10).2 X 60).1 = true ∧
      IsFeatureActivated k (DeactivateFeature k (ActivateFeature k g X 50 1 10).2 X 60).2 X 60 =
        false := by
  have hcur := ConsensusParamsCurrent_test g hnet
  have hok : (ActivateFeature k g X 50 1 10).1 = true :=
    ActivateFeature_accepts k g X 50 1 10 (by rw [hcur, hmin]; decide)
      (by rw [hcur, hmax]; decide) hoff
  have hp := ActivateFeature_params k g X 50 1 10 hok
  have hact : ∀ h : Int, IsFeatureActivated k (ActivateFeature k g X 50 1 10).2 X h =
      decide (h ≥ 50) := fun h => by
    rw [IsFeatureActivated_congr k _ _ X h hp, IsFeatureActivated_activateSwitch k g X _ _ _ hX]
  have hd := DeactivateFeature_clears_below k (ActivateFeature k g X 50 1 10).2 X 60 hX
    (by rw [hact]; decide) (by decide)
  exact ⟨hok, by rw [hact]; decide, by rw [hact]; decide, hd.1, hd.2⟩

/-- Witness for C3 (amended): the test-network state reached from the compiled-in
parameters by `DeactivateFeature(FEATURE_STOV1, 10)`, in which FEATURE_STOV1 is
not active at height 10. -/
theorem scenario_on_test_network_witness :
    (ActivateFeature sampleHeader
        (DeactivateFeature sampleHeader (initialGlobals "test") sampleHeader.FEATURE_STOV1 10).2
        sampleHeader.FEATURE_STOV1 50 1 10).1 = true ∧
      IsFeatureActivated sampleHeader (ActivateFeature sampleHeader
        (DeactivateFeature sampleHeader (initialGlobals "test") sampleHeader.FEATURE_STOV1 10).2
        sampleHeader.FEATURE_STOV1 50 1 10).2 sampleHeader.FEATURE_STOV1 49 = false ∧
      IsFeatureActivated sampleHeader (ActivateFeature sampleHeader
        (DeactivateFeature sampleHeader (initialGlobals "test") sampleHeader.FEATURE_STOV1 10).2
        sampleHeader.FEATURE_STOV1 50 1 10).2 sampleHeader.FEATURE_STOV1 50 = true ∧
      (DeactivateFeature sampleHeader (ActivateFeature sampleHeader
        (DeactivateFeature sampleHeader (initialGlobals "test") sampleHeader.FEATURE_STOV1 10).2
        sampleHeader.FEATURE_STOV1 50 1 10).2 sampleHeader.FEATURE_STOV1 60).1 = true ∧
      IsFeatureActivated sampleHeader (DeactivateFeature sampleHeader (ActivateFeature
        sampleHeader
        (DeactivateFeature sampleHeader (initialGlobals "test") sampleHeader.FEATURE_STOV1 10).2
        sampleHeader.FEATURE_STOV1 50 1 10).2 sampleHeader.FEATURE_STOV1 60).2
        sampleHeader.FEATURE_STOV1 60 = false :=
  scenario_on_test_network sampleHeader
    (DeactivateFeature sampleHeader (initialGlobals "test") sampleHeader.FEATURE_STOV1 10).2
    sampleHeader.FEATURE_STOV1 (by decide) (by decide) (by decide) (by decide) (by decide)

/-! ## Permission resolver -/

/-- The scan denies when no row matches the type and version. -/
theorem scanRestrictions_no_match (k : Header) (txBlock : Int) (txProperty txType version : Nat)
    (l : List TransactionRestriction)
    (hno : ∀ e ∈ l, ¬(e.txType = txType ∧ e.txVersion = version)) :
    scanRestrictions k txBlock txProperty txType version l = false := by
  induction l with
  | nil => rfl
  | cons e rest ih =>
    have he := hno e (List.mem_cons_self e rest)
    have hrest := ih (fun x hx => hno x (List.mem_cons_of_mem e hx))
    rw [scanRestrictions, if_pos (by tauto)]
    exact hrest

/-- The scan allows as soon as some row matches the type and version, is not
blocked for the wildcard property, and either the property is in the test
ecosystem or the block has reached the activation block of the row. -/
theorem scanRestrictions_of_mem (k : Header) (txBlock : Int) (txProperty txType version : Nat)
    (l : List TransactionRestriction) (e : TransactionRestriction) (he : e ∈ l)
    (ht : e.txType = txType) (hv : e.txVersion = version)
    (hw : k.OMNI_PROPERTY_BTC = txProperty → e.allowWildcard = true)
    (hpass : k.isTestEcosystemProperty txProperty = true ∨ txBlock ≥ e.activationBlock) :
    scanRestrictions k txBlock txProperty txType version l = true := by
  induction l with
  | nil => simp at he
  | cons x rest ih =>
    rw [scanRestrictions]
    rcases List.mem_cons.mp he with hx | hx
    · subst hx
      rw [if_neg (by simp [ht, hv]), if_neg (by
        rintro ⟨h1, h2⟩
        rw [hw h1] at h2
        exact Bool.noConfusion h2)]
      rcases hpass with hp | hp
      · rw [if_pos hp]
      · split_ifs <;> rfl
    · split_ifs
      · exact ih hx
      · exact ih hx
      · rfl
      · rfl
      · exact ih hx

/-- For the wildcard property the scan denies when every row that matches the type
and version has its wildcard flag cleared. -/
theorem scanRestrictions_wildcard_blocked (k : Header) (txBlock : Int) (txType version : Nat)
    (l : List TransactionRestriction)
    (hall : ∀ e ∈ l, e.txType = txType → e.txVersion = version → e.allowWildcard = false) :
    scanRestrictions k txBlock k.OMNI_PROPERTY_BTC txType version l = false := by
  induction l with
  | nil => rfl
  | cons x rest ih =>
    have hrest := ih (fun y hy => hall y (List.mem_cons_of_mem x hy))
    rw [scanRestrictions]
    by_cases hm : x.txType ≠ txType ∨ x.txVersion ≠ version
    · rw [if_pos hm]
      exact hrest
    · rw [if_neg hm]
      have hx : x.allowWildcard = false :=
        hall x (List.mem_cons_self x rest) (by tauto) (by tauto)
      rw [if_pos ⟨rfl, hx⟩]
      exact hrest

/-- C8: a (type, version) pair that matches no row of the restriction table is
not allowed, at every block height, for every property id and in every parameter
state. -/
theorem IsTransactionTypeAllowed_fail_closed (k : Header) (g : Globals) (txBlock : Int)
    (txProperty txType version : Nat)
    (hno : ∀ e ∈ GetRestrictions k (ConsensusParamsCurrent g),
      ¬(e.txType = txType ∧ e.txVersion = version)) :
    IsTransactionTypeAllowed k g txBlock txProperty txType version = false :=
  scanRestrictions_no_match k txBlock txProperty txType version _ hno

/-- Witness for C8: type 40 with version 0 is in no row of the table; it is denied
on the main network at height 4000000 for the test-ecosystem property 2. -/
theorem IsTransactionTypeAllowed_fail_closed_witness :
    IsTransactionTypeAllowed sampleHeader (initialGlobals "main") 4000000 2 40 0 = false :=
  IsTransactionTypeAllowed_fail_closed sampleHeader (initialGlobals "main") 4000000 2 40 0
    (by decide)

/-- C9: when no two rows of the restriction table share type and version, then for
every row and the wildcard property: if the row does not allow the wildcard, the
transaction is denied at every height; if the row allows it, the transaction is
allowed at every height from the activation block of the row on. -/
theorem IsTransactionTypeAllowed_wildcard (k : Header) (g : Globals)
    (e : TransactionRestriction) (txBlock : Int)
    (hkeys : ((GetRestrictions k (ConsensusParamsCurrent g)).map
      (fun r => (r.txType, r.txVersion))).Nodup)
    (he : e ∈ GetRestrictions k (ConsensusParamsCurrent g)) :
    (e.allowWildcard = false →
        IsTransactionTypeAllowed k g txBlock k.OMNI_PROPERTY_BTC e.txType e.txVersion = false) ∧
      (e.allowWildcard = true → txBlock ≥ e.activationBlock →
        IsTransactionTypeAllowed k g txBlock k.OMNI_PROPERTY_BTC e.txType e.txVersion = true) := by
  constructor
  · intro hw
    refine scanRestrictions_wildcard_blocked k txBlock e.txType e.txVersion _ ?_
    intro x hx ht hv
    have hxe : x = e := List.inj_on_of_nodup_map hkeys hx he (by simp [ht, hv])
    rw [hxe]
    exact hw
  · intro hw hh
    exact scanRestrictions_of_mem k txBlock k.OMNI_PROPERTY_BTC e.txType e.txVersion _ e he rfl
      rfl (fun _ => hw) (Or.inr hh)

/-- Witness for C9: on the main network at height 4000000 the wildcard property is
denied for the simple send (type 0, version 0, wildcard not allowed, block
3454000) and allowed for the any-data row (type 200, version 0, wildcard allowed,
block 0). -/
theorem IsTransactionTypeAllowed_wildcard_witness :
    IsTransactionTypeAllowed sampleHeader (initialGlobals "main") 4000000 0 0 0 = false ∧
      IsTransactionTypeAllowed sampleHeader (initialGlobals "main") 4000000 0 200 0 = true :=
  ⟨(IsTransactionTypeAllowed_wildcard sampleHeader (initialGlobals "main")
      ⟨0, 0, false, 3454000⟩ 4000000 (by decide) (by decide)).1 rfl,
    (IsTransactionTypeAllowed_wildcard sampleHeader (initialGlobals "main")
      ⟨200, 0, true, 0⟩ 4000000 (by decide) (by decide)).2 rfl (by decide)⟩

/-- C10: when the wildcard property is not a test-ecosystem id, then for every row
of the restriction table and every test-ecosystem property id the transaction is
allowed at height 0, in every parameter state and whatever the activation block
of the row. -/
theorem IsTransactionTypeAllowed_test_ecosystem (k : Header) (g : Globals)
    (e : TransactionRestriction) (txProperty : Nat)
    (hbtc : k.isTestEcosystemProperty k.OMNI_PROPERTY_BTC = false)
    (he : e ∈ GetRestrictions k (ConsensusParamsCurrent g))
    (hp : k.isTestEcosystemProperty txProperty = true) :
    IsTransactionTypeAllowed k g 0 txProperty e.txType e.txVersion = true := by
  refine scanRestrictions_of_mem k 0 txProperty e.txType e.txVersion _ e he rfl rfl ?_ (Or.inl hp)
  intro h
  rw [← h, hbtc] at hp
  exact Bool.noConfusion hp

/-- Witness for C10: on the main network the row of send-to-owners version 1
(type 3, activation block 100000000) and the test-ecosystem property 2. -/
theorem IsTransactionTypeAllowed_test_ecosystem_witness :
    IsTransactionTypeAllowed sampleHeader (initialGlobals "main") 0 2 3 1 = true :=
  IsTransactionTypeAllowed_test_ecosystem sampleHeader (initialGlobals "main")
    ⟨3, 1, false, 100000000⟩ 2 (by decide) (by decide) (by decide)

/-- C11 (code defect): when no row of the restriction table has the type
MSC_TYPE_OFFER_ACCEPT_A_BET, as in the table of `GetRestrictions`, that type with
version MP_TX_PKT_V0 is denied at every height for every property id, the test
ecosystem included. -/
theorem IsTransactionTypeAllowed_bet_denied (k : Header) (g : Globals) (txBlock : Int)
    (txProperty : Nat)
    (hbet : ∀ e ∈ GetRestrictions k (ConsensusParamsCurrent g),
      e.txType ≠ k.MSC_TYPE_OFFER_ACCEPT_A_BET) :
    IsTransactionTypeAllowed k g txBlock txProperty k.MSC_TYPE_OFFER_ACCEPT_A_BET
      k.MP_TX_PKT_V0 = false :=
  scanRestrictions_no_match k txBlock txProperty _ _ _ (fun e he hm => hbet e he hm.1)

/-- Witness for C11: with the compiled-in parameters of the main and of the test
network, at height 0, the bet type is denied for OMNI_PROPERTY_MSC and also for
the test-ecosystem property OMNI_PROPERTY_TMSC. -/
theorem IsTransactionTypeAllowed_bet_denied_witness :
    sampleHeader.isTestEcosystemProperty sampleHeader.OMNI_PROPERTY_TMSC = true ∧
      IsTransactionTypeAllowed sampleHeader (initialGlobals "main") 0
        sampleHeader.OMNI_PROPERTY_MSC sampleHeader.MSC_TYPE_OFFER_ACCEPT_A_BET
        sampleHeader.MP_TX_PKT_V0 = false ∧
      IsTransactionTypeAllowed sampleHeader (initialGlobals "main") 0
        sampleHeader.OMNI_PROPERTY_TMSC sampleHeader.MSC_TYPE_OFFER_ACCEPT_A_BET
        sampleHeader.MP_TX_PKT_V0 = false ∧
      IsTransactionTypeAllowed sampleHeader (initialGlobals "test") 0
        sampleHeader.OMNI_PROPERTY_MSC sampleHeader.MSC_TYPE_OFFER_ACCEPT_A_BET
        sampleHeader.MP_TX_PKT_V0 = false ∧
      IsTransactionTypeAllowed sampleHeader (initialGlobals "test") 0
        sampleHeader.OMNI_PROPERTY_TMSC sampleHeader.MSC_TYPE_OFFER_ACCEPT_A_BET
        sampleHeader.MP_TX_PKT_V0 = false :=
  ⟨by decide,
    IsTransactionTypeAllowed_bet_denied sampleHeader (initialGlobals "main") 0
      sampleHeader.OMNI_PROPERTY_MSC (by decide),
    IsTransactionTypeAllowed_bet_denied sampleHeader (initialGlobals "main") 0
      sampleHeader.OMNI_PROPERTY_TMSC (by decide),
    IsTransactionTypeAllowed_bet_denied sampleHeader (initialGlobals "test") 0
      sampleHeader.OMNI_PROPERTY_MSC (by decide),
    IsTransactionTypeAllowed_bet_denied sampleHeader (initialGlobals "test") 0
      sampleHeader.OMNI_PROPERTY_TMSC (by decide)⟩

/-! ## Network parameter set: claims -/

/-- C12 (code defect): the main-network constructor sets the notice range to 20160
and 120960 blocks, not 2048 and 12288.  On the main network a target 2048 blocks
ahead is refused and a target 50000 blocks ahead is accepted. -/
theorem main_notice_range :
    (ConsensusParams (initialGlobals "main") "main").MIN_ACTIVATION_BLOCKS = 20160 ∧
      (ConsensusParams (initialGlobals "main") "main").MAX_ACTIVATION_BLOCKS = 120960 ∧
      (ConsensusParams (initialGlobals "main") "main").MIN_ACTIVATION_BLOCKS ≠ 2048 ∧
      (ConsensusParams (initialGlobals "main") "main").MAX_ACTIVATION_BLOCKS ≠ 12288 ∧
      IsFeatureActivated sampleHeader (initialGlobals "main") sampleHeader.FEATURE_STOV1
        4000000 = false ∧
      (ActivateFeature sampleHeader (initialGlobals "main") sampleHeader.FEATURE_STOV1
        (4000000 + 2048) 1 4000000).1 = false ∧
      (ActivateFeature sampleHeader (initialGlobals "main") sampleHeader.FEATURE_STOV1
        (4000000 + 50000) 1 4000000).1 = true := by
  decide

/-- C13 (code defect): the main-network constructor sets MSC_STO_BLOCK to the
genesis block 3454000, not 0; the test-network constructor sets it to 0.  On the
main network send-to-owners version 0 is denied at height 0 for the
main-ecosystem property. -/
theorem send_to_owners_block :
    (ConsensusParams (initialGlobals "main") "main").MSC_STO_BLOCK = 3454000 ∧
      (ConsensusParams (initialGlobals "main") "main").MSC_STO_BLOCK ≠ 0 ∧
      (ConsensusParams (initialGlobals "main") "test").MSC_STO_BLOCK = 0 ∧
      IsTransactionTypeAllowed sampleHeader (initialGlobals "main") 0
        sampleHeader.OMNI_PROPERTY_MSC sampleHeader.MSC_TYPE_SEND_TO_OWNERS
        sampleHeader.MP_TX_PKT_V0 = false := by
  decide

/-- C14: the parameters each of the three constructors builds have
MIN_ACTIVATION_BLOCKS not above MAX_ACTIVATION_BLOCKS and every height threshold
non-negative. -/
theorem default_parameters_wellformed :
    (CMainConsensusParams.MIN_ACTIVATION_BLOCKS ≤ CMainConsensusParams.MAX_ACTIVATION_BLOCKS ∧
        thresholdsNonneg CMainConsensusParams) ∧
      (CTestNetConsensusParams.MIN_ACTIVATION_BLOCKS ≤
          CTestNetConsensusParams.MAX_ACTIVATION_BLOCKS ∧
        thresholdsNonneg CTestNetConsensusParams) ∧
      (CRegTestConsensusParams.MIN_ACTIVATION_BLOCKS ≤
          CRegTestConsensusParams.MAX_ACTIVATION_BLOCKS ∧
        thresholdsNonneg CRegTestConsensusParams) := by
  simp [thresholdsNonneg, CMainConsensusParams, CTestNetConsensusParams,
    CRegTestConsensusParams]

/-! ## Checkpoint verifier: claims -/

/-- The scan of `VerifyCheckpoint` fails on a block hash mismatch when the
checkpointed heights are pairwise distinct. -/
theorem scanCheckpoints_hash_mismatch (consensusHash : Nat) (block : Int) (blockHash : Nat)
    (l : List ConsensusCheckpoint) (cp : ConsensusCheckpoint) (hcp : cp ∈ l)
    (hheight : cp.blockHeight = block) (hhash : cp.blockHash ≠ blockHash)
    (huniq : (l.map (fun c => c.blockHeight)).Nodup) :
    scanCheckpoints consensusHash block blockHash l = false := by
  induction l with
  | nil => simp at hcp
  | cons x rest ih =>
    rw [List.map_cons, List.nodup_cons] at huniq
    rw [scanCheckpoints]
    rcases List.mem_cons.mp hcp with hx | hx
    · subst hx
      rw [if_neg (by simp [hheight]), if_pos (fun h => hhash h.symm)]
    · have hne : block ≠ x.blockHeight := by
        intro h
        apply huniq.1
        rw [← h, ← hheight]
        exact List.mem_map_of_mem (fun c => c.blockHeight) hx
      rw [if_pos hne]
      exact ih hx huniq.2

/-- C15: at a block height that is not a multiple of 10000, `VerifyCheckpoint`
returns true for every block hash, every checkpoint list and every consensus
hash. -/
theorem VerifyCheckpoint_off_interval (vCheckpoints : List ConsensusCheckpoint)
    (consensusHash : Nat) (block : Int) (blockHash : Nat) (h : ¬ (10000 : Int) ∣ block) :
    VerifyCheckpointOver vCheckpoints consensusHash block blockHash = true := by
  unfold VerifyCheckpointOver
  rw [if_pos (fun h0 => h (Int.dvd_of_tmod_eq_zero h0))]

/-- Witness for C15: height 12345 with a list that holds a checkpoint at that very
height whose block hash and consensus hash both differ from the supplied ones. -/
theorem VerifyCheckpoint_off_interval_witness :
    VerifyCheckpointOver [⟨12345, 7, 8⟩] 9 12345 1 = true :=
  VerifyCheckpoint_off_interval [⟨12345, 7, 8⟩] 9 12345 1 (by decide)

/-- C16: over a checkpoint list with at most one entry per height, at a height
that is a multiple of 10000 and has a checkpoint whose block hash differs from
the supplied one, `VerifyCheckpoint` returns false whatever the consensus hash
is. -/
theorem VerifyCheckpoint_hash_mismatch (vCheckpoints : List ConsensusCheckpoint)
    (consensusHash : Nat) (block : Int) (blockHash : Nat) (cp : ConsensusCheckpoint)
    (huniq : (vCheckpoints.map (fun c => c.blockHeight)).Nodup)
    (hmul : (10000 : Int) ∣ block) (hcp : cp ∈ vCheckpoints)
    (hheight : cp.blockHeight = block) (hhash : cp.blockHash ≠ blockHash) :
    VerifyCheckpointOver vCheckpoints consensusHash block blockHash = false := by
  unfold VerifyCheckpointOver
  rw [if_neg (by simp [Int.tmod_eq_zero_of_dvd hmul])]
  exact scanCheckpoints_hash_mismatch consensusHash block blockHash vCheckpoints cp hcp hheight
    hhash huniq

/-- Witness for C16: the checkpoint at height 20000 expects block hash 7 and
consensus hash 8; block hash 1 is supplied and the consensus hash is the expected
one. -/
theorem VerifyCheckpoint_hash_mismatch_witness :
    VerifyCheckpointOver [⟨10000, 5, 6⟩, ⟨20000, 7, 8⟩] 8 20000 1 = false :=
  VerifyCheckpoint_hash_mismatch [⟨10000, 5, 6⟩, ⟨20000, 7, 8⟩] 8 20000 1 ⟨20000, 7, 8⟩
    (by decide) (by decide) (by decide) rfl (by decide)

/-- C17: `VerifyTransactionExistence` returns false exactly when some checkpoint
whose height does not exceed the supplied height references a transaction that
the history index does not hold; removing the checkpoints above the supplied
height does not change the result. -/
theorem VerifyTransactionExistence_iff (existsTx : Nat → Bool) (block : Int)
    (l : List TransactionCheckpoint) :
    (VerifyTransactionExistenceOver existsTx block l = false ↔
        ∃ cp ∈ l, cp.blockHeight ≤ block ∧ existsTx cp.txHash = false) ∧
      VerifyTransactionExistenceOver existsTx block l =
        VerifyTransactionExistenceOver existsTx block
          (l.filter (fun cp => decide (cp.blockHeight ≤ block))) := by
  induction l with
  | nil => simp [VerifyTransactionExistenceOver]
  | cons x rest ih =>
    obtain ⟨ih1, ih2⟩ := ih
    by_cases hx : block < x.blockHeight
    · have hnx : ¬ x.blockHeight ≤ block := by omega
      constructor
      · rw [VerifyTransactionExistenceOver, if_pos hx, ih1]
        simp [hnx]
      · rw [VerifyTransactionExistenceOver, if_pos hx, List.filter_cons_of_neg (by simpa using hnx)]
        exact ih2
    · have hle : x.blockHeight ≤ block := by omega
      by_cases he : existsTx x.txHash = true
      · constructor
        · rw [VerifyTransactionExistenceOver, if_neg hx, if_neg (by simp [he]), ih1]
          simp [he]
        · rw [VerifyTransactionExistenceOver, if_neg hx, if_neg (by simp [he]),
            List.filter_cons_of_pos (by simpa using hle), VerifyTransactionExistenceOver,
            if_neg hx, if_neg (by simp [he])]
          exact ih2
      · have he0 : existsTx x.txHash = false := by simpa using he
        constructor
        · rw [VerifyTransactionExistenceOver, if_neg hx, if_pos (by simp [he0])]
          simp only [true_iff]
          exact ⟨x, List.mem_cons_self x rest, hle, he0⟩
        · rw [VerifyTransactionExistenceOver, if_neg hx, if_pos (by simp [he0]),
            List.filter_cons_of_pos (by simpa using hle), VerifyTransactionExistenceOver,
            if_neg hx, if_pos (by simp [he0])]

/-! ## Script types: claims -/

/-- C18: with pairwise distinct script type values, `IsAllowedInputType` is true
exactly for TX_PUBKEYHASH from PUBKEYHASH_BLOCK on and TX_SCRIPTHASH from
SCRIPTHASH_BLOCK on; `IsAllowedOutputType` is true exactly for these and for
TX_MULTISIG from MULTISIG_BLOCK on and TX_NULL_DATA from NULLDATA_BLOCK on; any
other script type is denied by both at every height. -/
theorem script_type_gating (t : ScriptTypes) (g : Globals) (whichType nBlock : Int)
    (hd : [t.TX_PUBKEYHASH, t.TX_SCRIPTHASH, t.TX_MULTISIG, t.TX_NULL_DATA].Nodup) :
    (IsAllowedInputType t g whichType nBlock = true ↔
        (whichType = t.TX_PUBKEYHASH ∧ (ConsensusParamsCurrent g).PUBKEYHASH_BLOCK ≤ nBlock) ∨
        (whichType = t.TX_SCRIPTHASH ∧ (ConsensusParamsCurrent g).SCRIPTHASH_BLOCK ≤ nBlock)) ∧
      (IsAllowedOutputType t g whichType nBlock = true ↔
        (whichType = t.TX_PUBKEYHASH ∧ (ConsensusParamsCurrent g).PUBKEYHASH_BLOCK ≤ nBlock) ∨
        (whichType = t.TX_SCRIPTHASH ∧ (ConsensusParamsCurrent g).SCRIPTHASH_BLOCK ≤ nBlock) ∨
        (whichType = t.TX_MULTISIG ∧ (ConsensusParamsCurrent g).MULTISIG_BLOCK ≤ nBlock) ∨
        (whichType = t.TX_NULL_DATA ∧ (ConsensusParamsCurrent g).NULLDATA_BLOCK ≤ nBlock)) ∧
      (whichType ∉ [t.TX_PUBKEYHASH, t.TX_SCRIPTHASH] →
        IsAllowedInputType t g whichType nBlock = false) ∧
      (whichType ∉ [t.TX_PUBKEYHASH, t.TX_SCRIPTHASH, t.TX_MULTISIG, t.TX_NULL_DATA] →
        IsAllowedOutputType t g whichType nBlock = false) := by
  simp only [List.nodup_cons, List.mem_cons, List.mem_singleton, List.not_mem_nil, or_false,
    not_or, List.nodup_nil, and_true, not_false_eq_true] at hd
  obtain ⟨⟨h12, h13, h14⟩, ⟨h23, h24⟩, h34⟩ := hd
  refine ⟨?_, ?_, ?_, ?_⟩
  · unfold IsAllowedInputType
    by_cases a1 : whichType = t.TX_PUBKEYHASH
    · subst a1; simp [h12]
    by_cases a2 : whichType = t.TX_SCRIPTHASH
    · subst a2; simp [Ne.symm h12]
    simp [a1, a2]
  · unfold IsAllowedOutputType
    by_cases a1 : whichType = t.TX_PUBKEYHASH
    · subst a1; simp [h12, h13, h14]
    by_cases a2 : whichType = t.TX_SCRIPTHASH
    · subst a2; simp [Ne.symm h12, h23, h24]
    by_cases a3 : whichType = t.TX_MULTISIG
    · subst a3; simp [Ne.symm h13, Ne.symm h23, h34]
    by_cases a4 : whichType = t.TX_NULL_DATA
    · subst a4; simp [Ne.symm h14, Ne.symm h24, Ne.symm h34]
    simp [a1, a2, a3, a4]
  · intro hn
    simp only [List.mem_cons, List.mem_singleton, List.not_mem_nil, or_false, not_or] at hn
    simp [IsAllowedInputType, hn.1, hn.2]
  · intro hn
    simp only [List.mem_cons, List.mem_singleton, List.not_mem_nil, or_false, not_or] at hn
    simp [IsAllowedOutputType, hn.1, hn.2.1, hn.2.2.1, hn.2.2.2]

/-- Witness for C18: on the main network at height 4000000 the multisig type 4 is
denied as input and allowed as output. -/
theorem script_type_gating_witness :
    IsAllowedInputType sampleScriptTypes (initialGlobals "main") 4 4000000 = false ∧
      IsAllowedOutputType sampleScriptTypes (initialGlobals "main") 4 4000000 = true :=
  ⟨(script_type_gating sampleScriptTypes (initialGlobals "main") 4 4000000
      (by decide)).2.2.1 (by decide),
    (script_type_gating sampleScriptTypes (initialGlobals "main") 4 4000000
      (by decide)).2.1.mpr (Or.inr (Or.inr (Or.inl ⟨rfl, by decide⟩)))⟩

/-! ## Feature activation registry: frame and lapsing -/

/-- An id outside the five recognised ones has the name "Unknown feature". -/
theorem GetFeatureName_unrecognised (k : Header) (featureId : Nat)
    (hf : featureId ∉ recognisedFeatures k) : GetFeatureName k featureId = "Unknown feature" := by
  simp only [recognisedFeatures, List.mem_cons, List.mem_singleton, not_or] at hf
  obtain ⟨h1, h2, h3, h4, h5, -⟩ := hf
  simp [GetFeatureName, h1, h2, h3, h4, h5]

/-- A feature that is activated at some height is activated at every later
height. -/
theorem IsFeatureActivated_later (k : Header) (g : Globals) (featureId : Nat) (h h' : Int)
    (hact : IsFeatureActivated k g featureId h = true) (hh : h ≤ h') :
    IsFeatureActivated k g featureId h' = true := by
  unfold IsFeatureActivated at hact ⊢
  simp only at hact ⊢
  split_ifs at hact ⊢ <;> exact decide_eq_true (le_trans (of_decide_eq_true hact) hh)

/-- The `switch` of `ActivateFeature` on one id leaves the answer for any other id
as it was. -/
theorem IsFeatureActivated_activateSwitch_other (k : Header) (g : Globals) (f x : Nat) (b : Int)
    (s : Bool) (h : Int) (hne : x ≠ f) :
    IsFeatureActivated k (activateSwitch k g x b s).1 f h = IsFeatureActivated k g f h := by
  unfold activateSwitch IsFeatureActivated
  split_ifs <;> simp_all [ConsensusParamsCurrent_MutableConsensusParams]

/-- The `switch` of `DeactivateFeature` on one id leaves the answer for any other
id as it was. -/
theorem IsFeatureActivated_deactivateSwitch_other (k : Header) (g g1 : Globals) (f x : Nat)
    (h : Int) (hne : x ≠ f) (hs : deactivateSwitch k g x = some g1) :
    IsFeatureActivated k g1 f h = IsFeatureActivated k g f h := by
  unfold deactivateSwitch at hs
  unfold IsFeatureActivated
  split_ifs at hs ⊢ <;> simp_all [ConsensusParamsCurrent_MutableConsensusParams] <;>
    (subst hs; simp_all [ConsensusParamsCurrent_MutableConsensusParams])

/-- A request for a feature that is active at the current height is refused and
the globals stay as they are. -/
theorem ActivateFeature_refused_of_active (k : Header) (g : Globals) (x : Nat) (b : Int)
    (v : Nat) (c : Int) (hact : IsFeatureActivated k g x c = true) :
    ActivateFeature k g x b v c = (false, g) := by
  unfold ActivateFeature
  simp only
  by_cases hw : b < c + (ConsensusParamsCurrent g).MIN_ACTIVATION_BLOCKS ∨
      b > c + (ConsensusParamsCurrent g).MAX_ACTIVATION_BLOCKS
  · rw [if_pos hw]
  · rw [if_neg hw, if_pos hact]

/-- After `ActivateFeature` the selected parameter object is either the one before
the call or the one its `switch` produced. -/
theorem ActivateFeature_params_cases (k : Header) (g : Globals) (x : Nat) (b : Int) (v : Nat)
    (c : Int) :
    ConsensusParamsCurrent (ActivateFeature k g x b v c).2 = ConsensusParamsCurrent g ∨
      ConsensusParamsCurrent (ActivateFeature k g x b v c).2 =
        ConsensusParamsCurrent
          (activateSwitch k g x b (decide (k.OMNICORE_VERSION ≥ v))).1 := by
  unfold ActivateFeature
  simp only
  split_ifs
  · exact Or.inl rfl
  · exact Or.inl rfl
  · exact Or.inr rfl
  · exact Or.inr rfl

/-- After `DeactivateFeature` the selected parameter object is either the one
before the call or the one its `switch` produced. -/
theorem DeactivateFeature_params_cases (k : Header) (g : Globals) (x : Nat) (c : Int) :
    ConsensusParamsCurrent (DeactivateFeature k g x c).2 = ConsensusParamsCurrent g ∨
      ∃ g1, deactivateSwitch k g x = some g1 ∧
        ConsensusParamsCurrent (DeactivateFeature k g x c).2 = ConsensusParamsCurrent g1 := by
  unfold DeactivateFeature
  split_ifs
  · exact Or.inl rfl
  · cases hs : deactivateSwitch k g x with
    | none => exact Or.inl rfl
    | some g1 => exact Or.inr ⟨g1, rfl, rfl⟩

/-- With exact sums: for an unrecognised feature id and a target inside the notice
window, `ActivateFeature` returns true and changes the globals only by appending one
pending activation (id, target, minimum client version, "Unknown feature"), one
alert from "omnicore" whose expiry block is the target, and the alert text as a
warning; the three parameter objects keep their values and the id is not
reported activated at any height afterwards. -/
theorem ActivateFeature_unrecognised_frame (k : Header) (g : Globals) (featureId : Nat)
    (activationBlock : Int) (minClientVersion : Nat) (transactionBlock : Int)
    (hf : featureId ∉ recognisedFeatures k)
    (hlo : transactionBlock + (ConsensusParamsCurrent g).MIN_ACTIVATION_BLOCKS ≤ activationBlock)
    (hhi : activationBlock ≤ transactionBlock + (ConsensusParamsCurrent g).MAX_ACTIVATION_BLOCKS) :
    ActivateFeature k g featureId activationBlock minClientVersion transactionBlock =
        (true,
          { g with
            vecPendingActivations := g.vecPendingActivations ++
              [⟨featureId, activationBlock, minClientVersion, "Unknown feature"⟩]
            currentOmniAlerts := g.currentOmniAlerts ++
              [⟨"omnicore", k.ALERT_BLOCK_EXPIRY, activationBlock,
                activationAlertText featureId activationBlock "Unknown feature"⟩]
            warnings := g.warnings ++
              [activationAlertText featureId activationBlock "Unknown feature"] }) ∧
      ∀ h : Int, IsFeatureActivated k
        (ActivateFeature k g featureId activationBlock minClientVersion transactionBlock).2
        featureId h = false := by
  refine ⟨?_, fun h => IsFeatureActivated_unrecognised k _ featureId h hf⟩
  have hoff := IsFeatureActivated_unrecognised k g featureId transactionBlock hf
  have hsw := activateSwitch_unrecognised k g featureId activationBlock
    (decide (k.OMNICORE_VERSION ≥ minClientVersion)) hf
  have hname := GetFeatureName_unrecognised k featureId hf
  unfold ActivateFeature
  simp only [hoff, hsw, hname, Bool.false_eq_true, if_false, Bool.not_false, if_true]
  rw [if_neg (by omega)]
  rfl

/-- C20: a feature that is active at height `h` (only a recognised one can be) is
still active at `h` and at every later height after any single `ActivateFeature`
call whose current height is at least `h` (for any feature id, its own included)
and after any `DeactivateFeature` call for a different feature id. -/
theorem no_implicit_lapsing (k : Header) (g : Globals) (f : Nat) (h h' : Int)
    (hact : IsFeatureActivated k g f h = true) (hh : h ≤ h') :
    (∀ (x : Nat) (target : Int) (version : Nat) (c : Int), h ≤ c →
        IsFeatureActivated k (ActivateFeature k g x target version c).2 f h' = true) ∧
      (∀ (x : Nat) (c : Int), x ≠ f →
        IsFeatureActivated k (DeactivateFeature k g x c).2 f h' = true) := by
  have hlater := IsFeatureActivated_later k g f h h' hact hh
  constructor
  · intro x target version c hc
    by_cases hx : x = f
    · subst hx
      rw [ActivateFeature_refused_of_active k g x target version c
        (IsFeatureActivated_later k g x h c hact hc)]
      exact hlater
    · rcases ActivateFeature_params_cases k g x target version c with hp | hp
      · rw [IsFeatureActivated_congr k _ _ f h' hp]
        exact hlater
      · rw [IsFeatureActivated_congr k _ _ f h' hp,
          IsFeatureActivated_activateSwitch_other k g f x _ _ h' hx]
        exact hlater
  · intro x c hx
    rcases DeactivateFeature_params_cases k g x c with hp | ⟨g1, hs, hp⟩
    · rw [IsFeatureActivated_congr k _ _ f h' hp]
      exact hlater
    · rw [IsFeatureActivated_congr k _ _ f h' hp,
        IsFeatureActivated_deactivateSwitch_other k g g1 f x h' hx hs]
      exact hlater

/-- Witness for C20: on the test network FEATURE_FREEDEX is active at height 10;
it is still active at height 20 after `ActivateFeature(FEATURE_FREEDEX, 50, 1, 10)`
and after `DeactivateFeature(FEATURE_STOV1, 10)`. -/
theorem no_implicit_lapsing_witness :
    IsFeatureActivated sampleHeader
        (ActivateFeature sampleHeader (initialGlobals "test") sampleHeader.FEATURE_FREEDEX 50 1
          10).2 sampleHeader.FEATURE_FREEDEX 20 = true ∧
      IsFeatureActivated sampleHeader
        (DeactivateFeature sampleHeader (initialGlobals "test") sampleHeader.FEATURE_STOV1
          10).2 sampleHeader.FEATURE_FREEDEX 20 = true :=
  ⟨(no_implicit_lapsing sampleHeader (initialGlobals "test") sampleHeader.FEATURE_FREEDEX 10 20
      (by decide) (by decide)).1 sampleHeader.FEATURE_FREEDEX 50 1 10 (by decide),
    (no_implicit_lapsing sampleHeader (initialGlobals "test") sampleHeader.FEATURE_FREEDEX 10 20
      (by decide) (by decide)).2 sampleHeader.FEATURE_STOV1 10 (by decide)⟩

/-! ## Activation seen by the permission resolver -/

/-- When no two rows share type and version, a property that is neither the
wildcard nor in the test ecosystem is allowed for the type and version of a row
exactly from the activation block of that row on. -/
theorem scanRestrictions_unique_row (k : Header) (txBlock : Int) (txProperty : Nat)
    (l : List TransactionRestriction) (e : TransactionRestriction)
    (hkeys : (l.map (fun r => (r.txType, r.txVersion))).Nodup) (he : e ∈ l)
    (hp0 : txProperty ≠ k.OMNI_PROPERTY_BTC)
    (hpt : k.isTestEcosystemProperty txProperty = false) :
    scanRestrictions k txBlock txProperty e.txType e.txVersion l =
      decide (txBlock ≥ e.activationBlock) := by
  induction l with
  | nil => simp at he
  | cons x rest ih =>
    rw [List.map_cons, List.nodup_cons] at hkeys
    obtain ⟨hx, hrest⟩ := hkeys
    rw [scanRestrictions]
    rcases List.mem_cons.mp he with hex | hex
    · subst hex
      have hno : scanRestrictions k txBlock txProperty e.txType e.txVersion rest = false := by
        apply scanRestrictions_no_match
        intro y hy hm
        apply hx
        rw [← hm.1, ← hm.2]
        exact List.mem_map_of_mem (fun r => (r.txType, r.txVersion)) hy
      rw [if_neg (by simp), if_neg (fun h => hp0 h.1.symm), hpt, hno]
      by_cases hb : txBlock ≥ e.activationBlock
      · simp [hb]
      · simp [hb]
    · have hne : x.txType ≠ e.txType ∨ x.txVersion ≠ e.txVersion := by
        by_contra hc
        simp only [not_or, not_not] at hc
        apply hx
        rw [hc.1, hc.2]
        exact List.mem_map_of_mem (fun r => (r.txType, r.txVersion)) hex
      rw [if_pos hne]
      exact ih hrest hex

/-- The type and version columns of the restriction table do not depend on the
parameter object. -/
theorem GetRestrictions_keys (k : Header) (p q : CConsensusParams) :
    (GetRestrictions k p).map (fun r => (r.txType, r.txVersion)) =
      (GetRestrictions k q).map (fun r => (r.txType, r.txVersion)) := rfl

/-- The `switch` of `ActivateFeature` on FEATURE_STOV1 writes MSC_STOV1_BLOCK. -/
theorem activateSwitch_STOV1 (k : Header) (g : Globals) (b : Int) (s : Bool) :
    (ConsensusParamsCurrent (activateSwitch k g k.FEATURE_STOV1 b s).1).MSC_STOV1_BLOCK = b := by
  simp [activateSwitch, ConsensusParamsCurrent_MutableConsensusParams]

/-- The `switch` of `ActivateFeature` on FEATURE_NONFUNGIBLE, an id distinct from
the three case labels before it, writes MSC_NONFUNGIBLE_BLOCK. -/
theorem activateSwitch_NONFUNGIBLE (k : Header) (g : Globals) (b : Int) (s : Bool)
    (hids : (recognisedFeatures k).Nodup) :
    (ConsensusParamsCurrent
      (activateSwitch k g k.FEATURE_NONFUNGIBLE b s).1).MSC_NONFUNGIBLE_BLOCK = b := by
  simp only [recognisedFeatures, List.nodup_cons, List.mem_cons, List.mem_singleton,
    List.not_mem_nil, or_false, not_or, List.nodup_nil, and_true, not_false_eq_true] at hids
  obtain ⟨⟨-, -, h14, -⟩, ⟨-, h24, -⟩, ⟨h34, -⟩, -⟩ := hids
  simp [activateSwitch, Ne.symm h14, Ne.symm h24, Ne.symm h34,
    ConsensusParamsCurrent_MutableConsensusParams]

/-- C21: when no two rows of the restriction table share type and version and
the five feature ids are pairwise distinct, then for every height and every
property that is neither the wildcard nor in the test ecosystem: after
`ActivateFeature(FEATURE_STOV1, target, ..)` has returned true, send-to-owners
version 1 is allowed exactly from `target` on; after
`ActivateFeature(FEATURE_NONFUNGIBLE, target, ..)` has returned true, the
non-fungible send and the non-fungible data transaction, version 0, are allowed
exactly from `target` on. -/
theorem activation_visible_to_permissions (k : Header) (g : Globals) (target : Int)
    (v : Nat) (c h : Int) (txProperty : Nat)
    (hkeys : ((GetRestrictions k (ConsensusParamsCurrent g)).map
      (fun r => (r.txType, r.txVersion))).Nodup)
    (hids : (recognisedFeatures k).Nodup)
    (hp0 : txProperty ≠ k.OMNI_PROPERTY_BTC)
    (hpt : k.isTestEcosystemProperty txProperty = false) :
    ((ActivateFeature k g k.FEATURE_STOV1 target v c).1 = true →
        (IsTransactionTypeAllowed k (ActivateFeature k g k.FEATURE_STOV1 target v c).2 h
          txProperty k.MSC_TYPE_SEND_TO_OWNERS k.MP_TX_PKT_V1 = true ↔ h ≥ target)) ∧
      ((ActivateFeature k g k.FEATURE_NONFUNGIBLE target v c).1 = true →
        (IsTransactionTypeAllowed k (ActivateFeature k g k.FEATURE_NONFUNGIBLE target v c).2 h
          txProperty k.MSC_TYPE_SEND_NONFUNGIBLE k.MP_TX_PKT_V0 = true ↔ h ≥ target) ∧
        (IsTransactionTypeAllowed k (ActivateFeature k g k.FEATURE_NONFUNGIBLE target v c).2 h
          txProperty k.MSC_TYPE_NONFUNGIBLE_DATA k.MP_TX_PKT_V0 = true ↔ h ≥ target)) := by
  constructor
  · intro hok
    have hfield : (ConsensusParamsCurrent
        (ActivateFeature k g k.FEATURE_STOV1 target v c).2).MSC_STOV1_BLOCK = target := by
      rw [ActivateFeature_params k g _ target v c hok]
      exact activateSwitch_STOV1 k g target _
    have hscan := scanRestrictions_unique_row k h txProperty
      (GetRestrictions k (ConsensusParamsCurrent (ActivateFeature k g k.FEATURE_STOV1 target v c).2))
      ⟨k.MSC_TYPE_SEND_TO_OWNERS, k.MP_TX_PKT_V1, false, (ConsensusParamsCurrent
        (ActivateFeature k g k.FEATURE_STOV1 target v c).2).MSC_STOV1_BLOCK⟩
      (by rw [GetRestrictions_keys k _ (ConsensusParamsCurrent g)]; exact hkeys)
      (by simp [GetRestrictions]) hp0 hpt
    simp only [hfield] at hscan
    unfold IsTransactionTypeAllowed
    rw [hscan, decide_eq_true_iff]
  · intro hok
    have hfield : (ConsensusParamsCurrent
        (ActivateFeature k g k.FEATURE_NONFUNGIBLE target v c).2).MSC_NONFUNGIBLE_BLOCK =
        target := by
      rw [ActivateFeature_params k g _ target v c hok]
      exact activateSwitch_NONFUNGIBLE k g target _ hids
    have hk : ((GetRestrictions k (ConsensusParamsCurrent
        (ActivateFeature k g k.FEATURE_NONFUNGIBLE target v c).2)).map
        (fun r => (r.txType, r.txVersion))).Nodup := by
      rw [GetRestrictions_keys k _ (ConsensusParamsCurrent g)]; exact hkeys
    have hsend := scanRestrictions_unique_row k h txProperty _
      ⟨k.MSC_TYPE_SEND_NONFUNGIBLE, k.MP_TX_PKT_V0, false, (ConsensusParamsCurrent
        (ActivateFeature k g k.FEATURE_NONFUNGIBLE target v c).2).MSC_NONFUNGIBLE_BLOCK⟩
      hk (by simp [GetRestrictions]) hp0 hpt
    have hdata := scanRestrictions_unique_row k h txProperty _
      ⟨k.MSC_TYPE_NONFUNGIBLE_DATA, k.MP_TX_PKT_V0, false, (ConsensusParamsCurrent
        (ActivateFeature k g k.FEATURE_NONFUNGIBLE target v c).2).MSC_NONFUNGIBLE_BLOCK⟩
      hk (by simp [GetRestrictions]) hp0 hpt
    simp only [hfield] at hsend hdata
    unfold IsTransactionTypeAllowed
    rw [hsend, hdata, decide_eq_true_iff]
    exact ⟨Iff.rfl, Iff.rfl⟩

/-- Witness for C21: on the regtest network FEATURE_STOV1 is activated for block
107 at height 100, and on the main network FEATURE_NONFUNGIBLE is activated for
block 3530000 at height 3500000; property 1 is then allowed at the target
height. -/
theorem activation_visible_to_permissions_witness :
    IsTransactionTypeAllowed sampleHeader
        (ActivateFeature sampleHeader (initialGlobals "regtest") sampleHeader.FEATURE_STOV1 107 1
          100).2 107 1 sampleHeader.MSC_TYPE_SEND_TO_OWNERS sampleHeader.MP_TX_PKT_V1 = true ∧
      IsTransactionTypeAllowed sampleHeader
        (ActivateFeature sampleHeader (initialGlobals "main") sampleHeader.FEATURE_NONFUNGIBLE
          3530000 1 3500000).2 3530000 1 sampleHeader.MSC_TYPE_SEND_NONFUNGIBLE
        sampleHeader.MP_TX_PKT_V0 = true :=
  ⟨((activation_visible_to_permissions sampleHeader (initialGlobals "regtest") 107 1 100 107 1
      (by decide) (by decide) (by decide) (by decide)).1 (by decide)).mpr (by decide),
    (((activation_visible_to_permissions sampleHeader (initialGlobals "main") 3530000 1 3500000
      3530000 1 (by decide) (by decide) (by decide) (by decide)).2 (by decide)).1).mpr
      (by decide)⟩

/-! ## Monotonicity in the block height -/

/-- The scan of `IsTransactionTypeAllowed` keeps allowing when the block height
grows. -/
theorem scanRestrictions_later (k : Header) (h h' : Int) (txProperty txType version : Nat)
    (l : List TransactionRestriction) (hh : h ≤ h')
    (hall : scanRestrictions k h txProperty txType version l = true) :
    scanRestrictions k h' txProperty txType version l = true := by
  induction l with
  | nil => simp [scanRestrictions] at hall
  | cons x rest ih =>
    rw [scanRestrictions] at hall ⊢
    by_cases h1 : x.txType ≠ txType ∨ x.txVersion ≠ version
    · rw [if_pos h1] at hall ⊢
      exact ih hall
    rw [if_neg h1] at hall ⊢
    by_cases h2 : k.OMNI_PROPERTY_BTC = txProperty ∧ x.allowWildcard = false
    · rw [if_pos h2] at hall ⊢
      exact ih hall
    rw [if_neg h2] at hall ⊢
    by_cases h3 : k.isTestEcosystemProperty txProperty = true
    · rw [if_pos h3]
    rw [if_neg h3] at hall ⊢
    by_cases h4 : h ≥ x.activationBlock
    · rw [if_pos (le_trans h4 hh)]
    rw [if_neg h4] at hall
    by_cases h5 : h' ≥ x.activationBlock
    · rw [if_pos h5]
    · rw [if_neg h5]
      exact ih hall

/-- C22: for a fixed parameter state and heights `h ≤ h'`, whatever is allowed or
activated at `h` is allowed or activated at `h'`: `IsTransactionTypeAllowed` for
every property, type and version, `IsFeatureActivated` for every feature id,
`IsAllowedInputType` and `IsAllowedOutputType` for every script type. -/
theorem queries_monotone (k : Header) (t : ScriptTypes) (g : Globals) (h h' : Int)
    (hh : h ≤ h') :
    (∀ txProperty txType version : Nat,
        IsTransactionTypeAllowed k g h txProperty txType version = true →
        IsTransactionTypeAllowed k g h' txProperty txType version = true) ∧
      (∀ featureId : Nat, IsFeatureActivated k g featureId h = true →
        IsFeatureActivated k g featureId h' = true) ∧
      (∀ whichType : Int, IsAllowedInputType t g whichType h = true →
        IsAllowedInputType t g whichType h' = true) ∧
      (∀ whichType : Int, IsAllowedOutputType t g whichType h = true →
        IsAllowedOutputType t g whichType h' = true) := by
  refine ⟨fun p ty v ha => scanRestrictions_later k h h' p ty v _ hh ha,
    fun f ha => IsFeatureActivated_later k g f h h' ha hh, fun s ha => ?_, fun s ha => ?_⟩
  · unfold IsAllowedInputType at ha ⊢
    simp only at ha ⊢
    split_ifs at ha ⊢ <;> exact decide_eq_true (le_trans (of_decide_eq_true ha) hh)
  · unfold IsAllowedOutputType at ha ⊢
    simp only at ha ⊢
    split_ifs at ha ⊢ <;> exact decide_eq_true (le_trans (of_decide_eq_true ha) hh)

/-- Witness for C22: on the main network, from the genesis block 3454000 to block
4000000: the simple send for property 1, FEATURE_FREEDEX, the script-hash input
and the null-data output. -/
theorem queries_monotone_witness :
    IsTransactionTypeAllowed sampleHeader (initialGlobals "main") 4000000 1 0 0 = true ∧
      IsFeatureActivated sampleHeader (initialGlobals "main") sampleHeader.FEATURE_FREEDEX
        4000000 = true ∧
      IsAllowedInputType sampleScriptTypes (initialGlobals "main") 3 4000000 = true ∧
      IsAllowedOutputType sampleScriptTypes (initialGlobals "main") 5 4000000 = true :=
  ⟨(queries_monotone sampleHeader sampleScriptTypes (initialGlobals "main") 3454000 4000000
      (by decide)).1 1 0 0 (by decide),
    (queries_monotone sampleHeader sampleScriptTypes (initialGlobals "main") 3454000 4000000
      (by decide)).2.1 sampleHeader.FEATURE_FREEDEX (by decide),
    (queries_monotone sampleHeader sampleScriptTypes (initialGlobals "main") 3454000 4000000
      (by decide)).2.2.1 3 (by decide),
    (queries_monotone sampleHeader sampleScriptTypes (initialGlobals "main") 3454000 4000000
      (by decide)).2.2.2 5 (by decide)⟩

/-! ## Checkpoint lists of this repository -/

/-- C23: for every selected network the checkpoint list and the transaction
checkpoint list are empty, so `VerifyCheckpoint` returns true for every height,
block hash and consensus hash, and `VerifyTransactionExistence` returns true for
every height and every content of the history index. -/
theorem checkpoint_verification_vacuous (g : Globals) (consensusHash : Nat) (block : Int)
    (blockHash : Nat) (existsTx : Nat → Bool) :
    GetCheckpoints g = [] ∧ GetTransactions g = [] ∧
      VerifyCheckpoint g consensusHash block blockHash = true ∧
      VerifyTransactionExistence g existsTx block = true := by
  have hc : GetCheckpoints g = [] := by
    unfold GetCheckpoints
    split_ifs <;> rfl
  have ht : GetTransactions g = [] := by
    unfold GetTransactions
    split_ifs <;> rfl
  refine ⟨hc, ht, ?_, ?_⟩
  · unfold VerifyCheckpoint VerifyCheckpointOver
    rw [hc]
    split_ifs <;> rfl
  · unfold VerifyTransactionExistence
    rw [ht]
    rfl

/-! ## The notice window in 32-bit arithmetic -/

/-- Wrapping leaves a representable value as it is. -/
theorem int32_of_isInt32 (x : Int) (hx : isInt32 x) : int32 x = x := by
  unfold isInt32 at hx
  unfold int32
  omega

/-- When both ends of the notice window are representable, the compiled code
computes what the exact sums give. -/
theorem ActivateFeatureInt32_eq (k : Header) (g : Globals) (featureId : Nat)
    (activationBlock : Int) (minClientVersion : Nat) (transactionBlock : Int)
    (hmin : isInt32 (transactionBlock + (ConsensusParamsCurrent g).MIN_ACTIVATION_BLOCKS))
    (hmax : isInt32 (transactionBlock + (ConsensusParamsCurrent g).MAX_ACTIVATION_BLOCKS)) :
    ActivateFeatureInt32 k g featureId activationBlock minClientVersion transactionBlock =
      ActivateFeature k g featureId activationBlock minClientVersion transactionBlock := by
  unfold ActivateFeatureInt32 ActivateFeature
  simp only [int32_of_isInt32 _ hmin, int32_of_isInt32 _ hmax]

/-- C2 (counterexample): feature id 9999 is none of the five recognised ids, yet
on the test network `ActivateFeature(9999, 50, 1, 10)` returns true. -/
theorem ActivateFeatureInt32_unrecognised_returns_true :
    9999 ∉ recognisedFeatures sampleHeader ∧
      (ActivateFeatureInt32 sampleHeader (initialGlobals "test") 9999 50 1 10).1 = true := by
  decide

/-- C2 (amended): for a feature id that is none of the five recognised ids, and
with `current + MIN_ACTIVATION_BLOCKS` and `current + MAX_ACTIVATION_BLOCKS`
representable as `int`, `ActivateFeature` returns true exactly when the target
height lies inside the notice window
`[current + MIN_ACTIVATION_BLOCKS, current + MAX_ACTIVATION_BLOCKS]` and false
otherwise; in both cases the three parameter objects keep their values. -/
theorem ActivateFeatureInt32_unrecognised (k : Header) (g : Globals) (featureId : Nat)
    (activationBlock : Int) (minClientVersion : Nat) (transactionBlock : Int)
    (hf : featureId ∉ recognisedFeatures k)
    (hmin : isInt32 (transactionBlock + (ConsensusParamsCurrent g).MIN_ACTIVATION_BLOCKS))
    (hmax : isInt32 (transactionBlock + (ConsensusParamsCurrent g).MAX_ACTIVATION_BLOCKS)) :
    ((ActivateFeatureInt32 k g featureId activationBlock minClientVersion
          transactionBlock).1 = true ↔
        transactionBlock + (ConsensusParamsCurrent g).MIN_ACTIVATION_BLOCKS ≤ activationBlock ∧
        activationBlock ≤ transactionBlock + (ConsensusParamsCurrent g).MAX_ACTIVATION_BLOCKS) ∧
      (ActivateFeatureInt32 k g featureId activationBlock minClientVersion
        transactionBlock).2.mainConsensusParams = g.mainConsensusParams ∧
      (ActivateFeatureInt32 k g featureId activationBlock minClientVersion
        transactionBlock).2.testNetConsensusParams = g.testNetConsensusParams ∧
      (ActivateFeatureInt32 k g featureId activationBlock minClientVersion
        transactionBlock).2.regTestConsensusParams = g.regTestConsensusParams := by
  rw [ActivateFeatureInt32_eq k g featureId activationBlock minClientVersion transactionBlock
    hmin hmax]
  exact ActivateFeature_unrecognised k g featureId activationBlock minClientVersion
    transactionBlock hf

/-- Witness for C2 (amended): feature id 9999 on the regtest network at height 100,
where the window is `[105, 110]`: target 107 is accepted and target 111 is
refused. -/
theorem ActivateFeatureInt32_unrecognised_witness :
    (ActivateFeatureInt32 sampleHeader (initialGlobals "regtest") 9999 107 1 100).1 = true ∧
      ¬ (ActivateFeatureInt32 sampleHeader (initialGlobals "regtest") 9999 111 1 100).1 = true ∧
      (ActivateFeatureInt32 sampleHeader (initialGlobals "regtest") 9999 107 1
        100).2.regTestConsensusParams = (initialGlobals "regtest").regTestConsensusParams :=
  ⟨(ActivateFeatureInt32_unrecognised sampleHeader (initialGlobals "regtest") 9999 107 1 100
      (by decide) ⟨by decide, by decide⟩ ⟨by decide, by decide⟩).1.mpr
      ⟨by decide, by decide⟩,
    fun h => absurd ((ActivateFeatureInt32_unrecognised sampleHeader (initialGlobals "regtest")
      9999 111 1 100 (by decide) ⟨by decide, by decide⟩ ⟨by decide, by decide⟩).1.mp h).2
      (by decide),
    (ActivateFeatureInt32_unrecognised sampleHeader (initialGlobals "regtest") 9999 107 1 100
      (by decide) ⟨by decide, by decide⟩ ⟨by decide, by decide⟩).2.2.2⟩

/-- C6 (counterexample): on the regtest network at current height 2147483647 the
target -2147483643 is below `current + MIN_ACTIVATION_BLOCKS`, but both ends of
the window wrap around to `[-2147483644, -2147483639]`: `ActivateFeature` returns
true for the id 9999 and a pending activation is appended. -/
theorem ActivateFeatureInt32_accepts_after_overflow :
    (-2147483643 : Int) <
        2147483647 + (ConsensusParamsCurrent (initialGlobals "regtest")).MIN_ACTIVATION_BLOCKS ∧
      int32 (2147483647 +
        (ConsensusParamsCurrent (initialGlobals "regtest")).MIN_ACTIVATION_BLOCKS) =
          -2147483644 ∧
      int32 (2147483647 +
        (ConsensusParamsCurrent (initialGlobals "regtest")).MAX_ACTIVATION_BLOCKS) =
          -2147483639 ∧
      (ActivateFeatureInt32 sampleHeader (initialGlobals "regtest") 9999 (-2147483643) 1
        2147483647).1 = true ∧
      (ActivateFeatureInt32 sampleHeader (initialGlobals "regtest") 9999 (-2147483643) 1
        2147483647).2.vecPendingActivations =
          [⟨9999, -2147483643, 1, "Unknown feature"⟩] := by
  decide

/-- C6 (amended): a request whose target height is below
`current + MIN_ACTIVATION_BLOCKS`, that sum being representable as `int`, or
above `current + MAX_ACTIVATION_BLOCKS`, that sum being representable as `int`,
or whose feature is already active at the current height, is refused:
`ActivateFeature` returns false and the globals (parameter objects, pending
activations, alerts, warnings) are unchanged. -/
theorem ActivateFeatureInt32_fails_closed (k : Header) (g : Globals) (featureId : Nat)
    (activationBlock : Int) (minClientVersion : Nat) (transactionBlock : Int)
    (h : (isInt32 (transactionBlock + (ConsensusParamsCurrent g).MIN_ACTIVATION_BLOCKS) ∧
        activationBlock < transactionBlock + (ConsensusParamsCurrent g).MIN_ACTIVATION_BLOCKS) ∨
      (isInt32 (transactionBlock + (ConsensusParamsCurrent g).MAX_ACTIVATION_BLOCKS) ∧
        activationBlock > transactionBlock + (ConsensusParamsCurrent g).MAX_ACTIVATION_BLOCKS) ∨
      IsFeatureActivated k g featureId transactionBlock = true) :
    ActivateFeatureInt32 k g featureId activationBlock minClientVersion transactionBlock =
      (false, g) := by
  unfold ActivateFeatureInt32
  simp only
  rcases h with ⟨hr, h⟩ | ⟨hr, h⟩ | h
  · rw [if_pos (Or.inl (by rw [int32_of_isInt32 _ hr]; exact h))]
  · rw [if_pos (Or.inr (by rw [int32_of_isInt32 _ hr]; exact h))]
  · by_cases hw : activationBlock <
        int32 (transactionBlock + (ConsensusParamsCurrent g).MIN_ACTIVATION_BLOCKS) ∨
        activationBlock >
          int32 (transactionBlock + (ConsensusParamsCurrent g).MAX_ACTIVATION_BLOCKS)
    · rw [if_pos hw]
    · rw [if_neg hw, if_pos h]

/-- Witness for C6 (amended): on the regtest network a target of 104 requested at
height 100 is one block short of the notice window. -/
theorem ActivateFeatureInt32_fails_closed_witness :
    ActivateFeatureInt32 sampleHeader (initialGlobals "regtest") sampleHeader.FEATURE_STOV1 104
      1 100 = (false, initialGlobals "regtest") :=
  ActivateFeatureInt32_fails_closed sampleHeader (initialGlobals "regtest")
    sampleHeader.FEATURE_STOV1 104 1 100 (Or.inl ⟨⟨by decide, by decide⟩, by decide⟩)

/-- C19 (counterexample): on the test network at current height 2147483647 the
target 2147483647 lies inside the window of the exact sums, but
`current + MAX_ACTIVATION_BLOCKS` wraps around to -2137483650: for the
unrecognised id 9999 `ActivateFeature` returns false and records neither a
pending activation nor an alert. -/
theorem ActivateFeatureInt32_refuses_after_overflow :
    9999 ∉ recognisedFeatures sampleHeader ∧
      (2147483647 : Int) +
        (ConsensusParamsCurrent (initialGlobals "test")).MIN_ACTIVATION_BLOCKS ≤ 2147483647 ∧
      (2147483647 : Int) ≤
        2147483647 + (ConsensusParamsCurrent (initialGlobals "test")).MAX_ACTIVATION_BLOCKS ∧
      int32 (2147483647 +
        (ConsensusParamsCurrent (initialGlobals "test")).MAX_ACTIVATION_BLOCKS) =
          -2137483650 ∧
      (ActivateFeatureInt32 sampleHeader (initialGlobals "test") 9999 2147483647 1
        2147483647).1 = false ∧
      (ActivateFeatureInt32 sampleHeader (initialGlobals "test") 9999 2147483647 1
        2147483647).2.vecPendingActivations = [] ∧
      (ActivateFeatureInt32 sampleHeader (initialGlobals "test") 9999 2147483647 1
        2147483647).2.currentOmniAlerts = [] := by
  decide

/-- C19 (amended): for an unrecognised feature id and a target inside the notice
window, with `current + MIN_ACTIVATION_BLOCKS` and
`current + MAX_ACTIVATION_BLOCKS` representable as `int`, `ActivateFeature`
returns true and changes the globals only by appending one pending activation
(id, target, minimum client version, "Unknown feature"), one alert from
"omnicore" whose expiry block is the target, and the alert text as a warning; the
three parameter objects keep their values and the id is not reported activated at
any height afterwards. -/
theorem ActivateFeatureInt32_unrecognised_frame (k : Header) (g : Globals) (featureId : Nat)
    (activationBlock : Int) (minClientVersion : Nat) (transactionBlock : Int)
    (hf : featureId ∉ recognisedFeatures k)
    (hmin : isInt32 (transactionBlock + (ConsensusParamsCurrent g).MIN_ACTIVATION_BLOCKS))
    (hmax : isInt32 (transactionBlock + (ConsensusParamsCurrent g).MAX_ACTIVATION_BLOCKS))
    (hlo : transactionBlock + (ConsensusParamsCurrent g).MIN_ACTIVATION_BLOCKS ≤ activationBlock)
    (hhi : activationBlock ≤ transactionBlock + (ConsensusParamsCurrent g).MAX_ACTIVATION_BLOCKS) :
    ActivateFeatureInt32 k g featureId activationBlock minClientVersion transactionBlock =
        (true,
          { g with
            vecPendingActivations := g.vecPendingActivations ++
              [⟨featureId, activationBlock, minClientVersion, "Unknown feature"⟩]
            currentOmniAlerts := g.currentOmniAlerts ++
              [⟨"omnicore", k.ALERT_BLOCK_EXPIRY, activationBlock,
                activationAlertText featureId activationBlock "Unknown feature"⟩]
            warnings := g.warnings ++
              [activationAlertText featureId activationBlock "Unknown feature"] }) ∧
      ∀ h : Int, IsFeatureActivated k
        (ActivateFeatureInt32 k g featureId activationBlock minClientVersion transactionBlock).2
        featureId h = false := by
  rw [ActivateFeatureInt32_eq k g featureId activationBlock minClientVersion transactionBlock
    hmin hmax]
  exact ActivateFeature_unrecognised_frame k g featureId activationBlock minClientVersion
    transactionBlock hf hlo hhi

/-- Witness for C19 (amended): feature id 9999 on the regtest network, target 107
requested at height 100 with minimum client version 1. -/
theorem ActivateFeatureInt32_unrecognised_frame_witness :
    (ActivateFeatureInt32 sampleHeader (initialGlobals "regtest") 9999 107 1 100).1 = true ∧
      (ActivateFeatureInt32 sampleHeader (initialGlobals "regtest") 9999 107 1
        100).2.regTestConsensusParams = CRegTestConsensusParams ∧
      (ActivateFeatureInt32 sampleHeader (initialGlobals "regtest") 9999 107 1
        100).2.vecPendingActivations = [⟨9999, 107, 1, "Unknown feature"⟩] ∧
      ((ActivateFeatureInt32 sampleHeader (initialGlobals "regtest") 9999 107 1
        100).2.currentOmniAlerts.map (fun a => a.alertExpiry)) = [107] ∧
      IsFeatureActivated sampleHeader
        (ActivateFeatureInt32 sampleHeader (initialGlobals "regtest") 9999 107 1 100).2 9999
        100000000 = false := by
  have h := ActivateFeatureInt32_unrecognised_frame sampleHeader (initialGlobals "regtest") 9999
    107 1 100 (by decide) ⟨by decide, by decide⟩ ⟨by decide, by decide⟩ (by decide) (by decide)
  rw [h.1]
  exact ⟨rfl, rfl, rfl, rfl, by decide⟩

end mastercore
